import Mathlib

/-!
# Corestad tag-management bridge: consent resolution, tag loader, cart and checkout events

A shallow embedding of `settings_customer-events/corestad-tag-management.js`.

Modelling conventions.

* JavaScript values are the JSON-shaped values of `JSVal`; an object is an association
  list in insertion order, looked up by its first matching key.
* A number value is `NaN`, an infinity, negative zero, or a finite value named by its
  exact rational. The arithmetic on numbers (`/` and `*`) is the binary64 arithmetic of
  the host and is taken as a parameter of `Env`: nothing is assumed about its rounding.
* A JavaScript exception is the `error` side of `Except JSError`.
* The mutable globals of the script (`window.dataLayer`, `gtmLoaded`, `uConsent`,
  `currentConsents`) and the script elements it inserts form the record `State`.
* `debugLog` only writes to the console (and `debug` is `false`), so it is left out.
-/

set_option autoImplicit false

namespace Corestad

/-! ## JavaScript values -/

/-- Exceptions the script can raise or receive. -/
inductive JSError where
  | typeError
  | syntaxError
  | uriError
  | networkError
  deriving DecidableEq, Repr

/-- A JavaScript number: `NaN`, a finite value named by its exact rational (`fin 0` is
positive zero), an infinity, or negative zero. -/
inductive JSNum where
  | nan
  | fin (q : ℚ)
  | inf (negative : Bool)
  | negZero
  deriving DecidableEq

/-- JSON-shaped JavaScript values. -/
inductive JSVal where
  | undefined
  | null
  | bool (b : Bool)
  | num (n : JSNum)
  | str (s : String)
  | arr (xs : List JSVal)
  | obj (fields : List (String × JSVal))

/-- A plain object: its own properties in insertion order. -/
abbrev Obj := List (String × JSVal)

/-- Own-property lookup; `undefined` when the key is absent. -/
def Obj.get (o : Obj) (k : String) : JSVal :=
  match o.find? (fun p => p.1 == k) with
  | some p => p.2
  | none => .undefined

/-- ToBoolean. -/
def truthy : JSVal → Bool
  | .undefined => false
  | .null => false
  | .bool b => b
  | .num .nan => false
  | .num (.fin q) => q != 0
  | .num (.inf _) => true
  | .num .negZero => false
  | .str s => s != ""
  | .arr _ => true
  | .obj _ => true

/-- The test `v == null` behind `?.`: `v` is `undefined` or `null`. -/
def nullish : JSVal → Bool
  | .undefined => true
  | .null => true
  | _ => false

/-- Property read `v.k` for the property names this script uses (none of which is
inherited from a built-in prototype): a `TypeError` on `undefined` and `null`, the own
property of an object, `undefined` on every other value. -/
def getProp (v : JSVal) (k : String) : Except JSError JSVal :=
  match v with
  | .undefined => .error .typeError
  | .null => .error .typeError
  | .obj o => .ok (Obj.get o k)
  | _ => .ok .undefined

/-- The operator `a || b` on already evaluated operands. -/
def jsOr (a b : JSVal) : JSVal := if truthy a then a else b

/-- The comparison `v === "s"` against a string literal. -/
def strictEqStr (v : JSVal) (s : String) : Bool :=
  match v with
  | .str t => t == s
  | _ => false

/-! ## Configuration and state -/

/-- The constant `gtmConfig`. -/
structure GtmConfig where
  gtm_id : String
  gtm_url : String

/-- The constant `privacyConfig`. -/
structure PrivacyConfig where
  cs : Bool
  cm : Bool
  cgtm : Bool
  cshy : Bool
  store_managed : Bool
  store_implement : Bool
  cm_default : Obj

/-- What `loadPrivacySettings` resolves to: `privacyConfig` itself (`cm_shfy` absent) or a
copy of it extended with the cookie-derived consent `cm_shfy`. -/
structure PrivacySettings extends PrivacyConfig where
  cm_shfy : Option Obj

/-- An optional object as a value: `undefined` when absent. -/
def optObj : Option Obj → JSVal
  | none => .undefined
  | some o => .obj o

/-- The expression `x || {}` for `x` an object or `undefined`. -/
def orEmpty : Option Obj → Obj
  | none => []
  | some o => o

/-- The host environment and the constants of the script. `parseCookie` stands for
`JSON.parse(decodeURIComponent(.))`, `cookie` for `browser.cookie.get`, `strToNumber`
and `arrToNumber` for ToNumber on strings and on arrays (the latter can throw, as the
conversion of an array element to a string can), `numDiv` and `numMul` for the binary64
division and multiplication behind `/` and `*`, `sha256` for the value the
hashing helper of the script resolves to, `toLowerCase` for
`String.prototype.toLowerCase`, and `cosd` for the page-context global.

Modelled from the spec: `cosd`, which the source reads but never declares, is an
externally populated object. -/
structure Env where
  privacyConfig : PrivacyConfig
  gtmConfig : GtmConfig
  cookie : String → Option String
  parseCookie : String → Except JSError JSVal
  cosd : Obj
  strToNumber : String → JSNum
  arrToNumber : List JSVal → Except JSError JSNum
  numDiv : JSNum → JSNum → JSNum
  numMul : JSNum → JSNum → JSNum
  sha256 : JSVal → JSVal
  toLowerCase : String → String

/-- Modelled from the spec: the tag-manager loaded flag `gtmLoaded`, whose declaration is
not in the source file, is a single process-wide boolean that starts unset. The other
fields are the globals the script declares or assigns, and `scripts` lists the `src` of
the script elements it inserted, the newest first (the host document is taken to hold
the script element that runs this program, so the lookup of the first script element
and the insertion before it succeed). -/
structure State where
  dataLayer : List JSVal
  gtmLoaded : Bool
  uConsent : Obj
  currentConsents : Option Obj
  scripts : List String

/-- The initial value of `uConsent`. -/
def uConsent0 : Obj :=
  [("ad_storage", .str "denied"), ("analytics_storage", .str "denied"),
   ("ad_user_data", .str "denied"), ("ad_personalization", .str "denied")]

/-- The state when the script starts: an empty queue, nothing loaded. -/
def State.init : State :=
  { dataLayer := [], gtmLoaded := false, uConsent := uConsent0,
    currentConsents := none, scripts := [] }

/-! ## Consent helpers -/

/-- `hasRequiredConsent(consent)`, read as the condition of an `if`. -/
def hasRequiredConsent (consent : JSVal) : Bool :=
  truthy consent &&
    (match getProp consent "ad_storage" with
     | .ok v => strictEqStr v "granted"
     | .error _ => false) &&
    (match getProp consent "analytics_storage" with
     | .ok v => strictEqStr v "granted"
     | .error _ => false)

/-- `loadCookieConsentData()`: the first cookie with a non-empty value. -/
def loadCookieConsentData (env : Env) : Option String :=
  let cookieNames := ["_tracking_consent", "_cmp_a", "_shp_cmp"]
  cookieNames.findSome? fun name =>
    match env.cookie name with
    | some value => if value != "" then some value else none
    | none => none

/-- The literal `c ? "granted" : "denied"`. -/
def grantedIf (c : JSVal) : JSVal :=
  if truthy c then .str "granted" else .str "denied"

/-- `loadPrivacySettings()`. -/
def loadPrivacySettings (env : Env) : Except JSError PrivacySettings :=
  match loadCookieConsentData env with
  | none => .ok { toPrivacyConfig := env.privacyConfig, cm_shfy := none }
  | some cookieConsentData => do
    let parsed ← env.parseCookie cookieConsentData
    let shopifyConsent ← getProp parsed "purposes"
    let m1 ← getProp shopifyConsent "m"
    let a ← getProp shopifyConsent "a"
    let m2 ← getProp shopifyConsent "m"
    let m3 ← getProp shopifyConsent "m"
    let loadedPrivacySettings : Obj :=
      [("ad_storage", grantedIf m1), ("analytics_storage", grantedIf a),
       ("ad_user_data", grantedIf m2), ("ad_personalization", grantedIf m3)]
    pure { toPrivacyConfig := env.privacyConfig, cm_shfy := some loadedPrivacySettings }

/-! ## Queue primitives -/

/-- `_trackObj(eventPayload)`: append to `window.dataLayer`. -/
def _trackObj (eventPayload : JSVal) (s : State) : State :=
  { s with dataLayer := s.dataLayer ++ [eventPayload] }

/-- The record pushed by `setDefaultConsent`; the spread copies the own properties. -/
def defaultConsentRecord (consentSettings : Obj) : JSVal :=
  .obj [("event", .str "defaultConsent"), ("gtm.consent", .obj consentSettings)]

/-- `setDefaultConsent(consentSettings)`. -/
def setDefaultConsent (consentSettings : Obj) (s : State) : State :=
  if s.gtmLoaded then s
  else { s with dataLayer := s.dataLayer ++ [defaultConsentRecord consentSettings] }

/-- The record pushed by `consentUpdate`: the four categories read off the argument. -/
def consentUpdateRecord (updatedPrivacy : Obj) : JSVal :=
  .obj [("event", .str "consentUpdate"),
    ("gtm.consent", .obj
      [("ad_storage", Obj.get updatedPrivacy "ad_storage"),
       ("analytics_storage", Obj.get updatedPrivacy "analytics_storage"),
       ("ad_user_data", Obj.get updatedPrivacy "ad_user_data"),
       ("ad_personalization", Obj.get updatedPrivacy "ad_personalization")])]

/-- `consentUpdate(updatedPrivacy)`; the function has no `await`, so its body runs to the
end when it is called. -/
def consentUpdate (updatedPrivacy : Obj) (s : State) : State :=
  { s with
    dataLayer := s.dataLayer ++ [consentUpdateRecord updatedPrivacy]
    uConsent := updatedPrivacy
    currentConsents := some updatedPrivacy }

/-- The record pushed by the loader snippet; `now` is `new Date().getTime()`. -/
def bootstrapRecord (now : Nat) : JSVal :=
  .obj [("gtm.start", .num (.fin now)), ("event", .str "gtm.js")]

/-- The `src` of the inserted script element, for queue name `l`. -/
def scriptSrc (cfg : GtmConfig) (l : String) : String :=
  let dl := if l != "dataLayer" then "&l=" ++ l else ""
  cfg.gtm_url ++ "gtm.js?id=" ++ cfg.gtm_id ++ dl

/-- `initTagManager()`, with `now` the clock reading of this call. -/
def initTagManager (env : Env) (now : Nat) (s : State) : State :=
  if s.gtmLoaded then s
  else
    { s with
      dataLayer := s.dataLayer ++ [bootstrapRecord now]
      scripts := scriptSrc env.gtmConfig "dataLayer" :: s.scripts
      gtmLoaded := true }

/-- The tracking event `{ event: 'consent_update', consent_states: c }`. -/
def consentEvent (c : Obj) : JSVal :=
  .obj [("event", .str "consent_update"), ("consent_states", .obj c)]

/-! ## The decision procedure -/

/-- The body of `initAllScripts()` after `loadPrivacySettings()` has resolved to
`dPrivacy` (`dPrivacy` is always an object, so `|| {}` keeps it). -/
def initAllScriptsWith (env : Env) (now : Nat) (dPrivacy : PrivacySettings) (s : State) :
    State :=
  if env.privacyConfig.store_managed && !env.privacyConfig.store_implement then
    initTagManager env now s
  else if env.privacyConfig.store_implement then s
  else if !dPrivacy.cs then
    -- lax mode
    if dPrivacy.cm then
      if dPrivacy.cgtm then
        initTagManager env now s
      else if dPrivacy.cshy then
        let s1 := setDefaultConsent dPrivacy.cm_default s
        let s2 := initTagManager env now s1
        let s3 := consentUpdate (orEmpty dPrivacy.cm_shfy) s2
        _trackObj (consentEvent (orEmpty dPrivacy.cm_shfy)) s3
      else
        let s1 := setDefaultConsent s.uConsent s
        let s2 := initTagManager env now s1
        let s3 := consentUpdate s2.uConsent s2
        _trackObj (consentEvent s3.uConsent) s3
    else
      if dPrivacy.cgtm then
        initTagManager env now s
      else if dPrivacy.cshy then
        let s1 := initTagManager env now s
        _trackObj (consentEvent (orEmpty dPrivacy.cm_shfy)) s1
      else
        let s1 := initTagManager env now s
        _trackObj (consentEvent s1.uConsent) s1
  else
    -- strict mode
    if dPrivacy.cm then
      if dPrivacy.cgtm then
        if hasRequiredConsent (optObj dPrivacy.cm_shfy) then
          initTagManager env now s
        else s
      else if dPrivacy.cshy then
        if hasRequiredConsent (optObj dPrivacy.cm_shfy) then
          let s1 := setDefaultConsent dPrivacy.cm_default s
          let s2 := initTagManager env now s1
          let s3 := consentUpdate (orEmpty dPrivacy.cm_shfy) s2
          _trackObj (consentEvent (orEmpty dPrivacy.cm_shfy)) s3
        else s
      else
        if hasRequiredConsent (.obj s.uConsent) then
          let s1 := setDefaultConsent s.uConsent s
          let s2 := initTagManager env now s1
          let s3 := consentUpdate s2.uConsent s2
          _trackObj (consentEvent s3.uConsent) s3
        else s
    else
      if dPrivacy.cgtm then
        if hasRequiredConsent (optObj dPrivacy.cm_shfy) then
          initTagManager env now s
        else s
      else if dPrivacy.cshy then
        if hasRequiredConsent (optObj dPrivacy.cm_shfy) then
          let s1 := initTagManager env now s
          _trackObj (consentEvent (orEmpty dPrivacy.cm_shfy)) s1
        else s
      else
        if hasRequiredConsent (.obj s.uConsent) then
          let s1 := initTagManager env now s
          _trackObj (consentEvent s1.uConsent) s1
        else s

/-- `initAllScripts()`: resolve the privacy settings, then decide. A throw of
`loadPrivacySettings` rejects the whole call before anything is done. `s` is the state
when the function resumes after its only `await`. -/
def initAllScripts (env : Env) (now : Nat) (s : State) : Except JSError State :=
  match loadPrivacySettings env with
  | .error e => .error e
  | .ok dPrivacy => .ok (initAllScriptsWith env now dPrivacy s)

/-- The `event` field of a queue record. -/
def eventOf (r : JSVal) : JSVal :=
  match r with
  | .obj o => Obj.get o "event"
  | _ => .undefined

/-- Whether a queue record carries the event name `name`. -/
def isEvent (name : String) (r : JSVal) : Bool := strictEqStr (eventOf r) name

/-- Whether a queue record is one of the three consent records. -/
def isConsentRecord (r : JSVal) : Bool :=
  isEvent "defaultConsent" r || isEvent "consentUpdate" r || isEvent "consent_update" r

/-- The consent object the strict branches pass to `hasRequiredConsent`: the
cookie-derived `cm_shfy` when the CMP is tag-manager-hosted or platform-hosted, the
in-memory `uConsent` otherwise. -/
def gatedConsent (dPrivacy : PrivacySettings) (s : State) : JSVal :=
  if dPrivacy.cgtm || dPrivacy.cshy then optObj dPrivacy.cm_shfy else .obj s.uConsent

/-- A consent value in which both `ad_storage` and `analytics_storage` are the string
`"granted"`. -/
def BothGranted (c : JSVal) : Prop :=
  ∃ o : Obj, c = .obj o ∧ Obj.get o "ad_storage" = .str "granted" ∧
    Obj.get o "analytics_storage" = .str "granted"

/-- Successive calls of `initTagManager()`, one per clock reading in `clocks`. -/
def initTagManagerCalls (env : Env) (clocks : List Nat) (s : State) : State :=
  clocks.foldl (fun st t => initTagManager env t st) s

/-! ## Numbers -/

/-- ToNumber. An object goes through OrdinaryToPrimitive first, which calls `valueOf`
and then `toString` when they are callable. A JSON-shaped object holds no function: the
inherited `valueOf` returns the object itself, so the outcome rests on `toString`. With
an own `toString` property (not callable) no method yields a primitive and a `TypeError`
is thrown; otherwise the inherited `toString` gives `"[object Object]"`, which is
`NaN`. -/
def toNumber (env : Env) : JSVal → Except JSError JSNum
  | .undefined => .ok .nan
  | .null => .ok (.fin 0)
  | .bool b => .ok (.fin (if b then 1 else 0))
  | .num n => .ok n
  | .str t => .ok (env.strToNumber t)
  | .arr xs => env.arrToNumber xs
  | .obj o => if o.any (fun p => p.1 == "toString") then .error .typeError else .ok .nan

/-! ## Cart events -/

/-- `Array.prototype.map` with a callback that may throw: the first throw ends the
traversal. -/
def arrayMap (f : JSVal → Except JSError JSVal) : List JSVal → Except JSError (List JSVal)
  | [] => .ok []
  | x :: xs => do
    let y ← f x
    let ys ← arrayMap f xs
    pure (y :: ys)

/-- The line item built from one cart entry, in both branches of `emitCartEvent`. -/
def cartItem (env : Env) (item : JSVal) : Except JSError JSVal := do
  let product_id ← getProp item "product_id"
  let product_title ← getProp item "product_title"
  let title ← if truthy product_title then pure product_title else getProp item "title"
  let vendor ← getProp item "vendor"
  let product_type ← getProp item "product_type"
  let variant_id ← getProp item "variant_id"
  let price ← getProp item "price"
  let priceNumber ← toNumber env price
  let quantity ← getProp item "quantity"
  pure (.obj [("item_id", product_id), ("item_name", title), ("item_brand", vendor),
    ("item_category", jsOr product_type (.str "")), ("item_variant", variant_id),
    ("price", .num (env.numDiv priceNumber (.fin 100))), ("quantity", quantity)])

/-- `emitCartEvent(eventType, data)`. -/
def emitCartEvent (env : Env) (eventType : String) (data : JSVal) (s : State) :
    Except JSError State := do
  let dataItems ← getProp data "items"
  let (items, totalValue) ←
    match dataItems with
    | .arr xs => do
      let items ← arrayMap (cartItem env) xs
      let total_price ← getProp data "total_price"
      let totalNumber ← toNumber env total_price
      pure (items, env.numDiv totalNumber (.fin 100))
    | _ => do
      let item ← cartItem env data
      let price ← getProp data "price"
      let quantity ← getProp data "quantity"
      let priceNumber ← toNumber env price
      let quantityNumber ← toNumber env quantity
      pure ([item], env.numDiv (env.numMul priceNumber quantityNumber) (.fin 100))
  let eventPayload : JSVal :=
    .obj [("event", .str eventType),
      ("ecommerce", .obj [("currency", Obj.get env.cosd "currency"),
        ("value", .num totalValue), ("items", .arr items)])]
  pure (_trackObj eventPayload s)

/-- The line item `y` is what `emitCartEvent` builds from the cart entry `x`: its `price`
is the entry's `price`, converted to the number `n`, divided by 100, and its `quantity`
is the entry's `quantity`. -/
def MapsCartItem (env : Env) (x y : JSVal) : Prop :=
  ∃ (o : Obj) (p q : JSVal) (n : JSNum), y = .obj o ∧ cartItem env x = .ok y ∧
    getProp x "price" = .ok p ∧ getProp x "quantity" = .ok q ∧
    toNumber env p = .ok n ∧
    Obj.get o "price" = .num (env.numDiv n (.fin 100)) ∧ Obj.get o "quantity" = q

/-- The value read by `v.k` for a `v` that is neither `undefined` nor `null`. -/
def fieldOf (v : JSVal) (k : String) : JSVal :=
  match v with
  | .obj o => Obj.get o k
  | _ => .undefined

/-- ToNumber returns on `v`, without a throw. -/
def Converts (env : Env) (v : JSVal) : Prop := ∃ n : JSNum, toNumber env v = .ok n

/-- The payload `emitCartEvent` pushes for the line items `items` and total `totalValue`. -/
def cartPayload (env : Env) (eventType : String) (totalValue : JSNum) (items : List JSVal) :
    JSVal :=
  .obj [("event", .str eventType),
    ("ecommerce", .obj [("currency", Obj.get env.cosd "currency"),
      ("value", .num totalValue), ("items", .arr items)])]

/-- The string `s` contains `sub` as a contiguous run of characters. -/
def Contains (s sub : String) : Prop := sub.data <:+: s.data

instance (s sub : String) : Decidable (Contains s sub) :=
  inferInstanceAs (Decidable (sub.data <:+: s.data))

/-! ## Network interceptors -/

/-- `String.prototype.includes`: `sub` occurs in `s` as a contiguous run of characters. -/
def includes (s sub : String) : Bool := decide (sub.data <:+: s.data)

/-- The classification made by the wrapped `fetch`; `none` when the request is passed
through. -/
def fetchEventType (url : String) : Option String :=
  if includes url "/cart/add" || includes url "/cart/change" then
    let isAdd := includes url "/cart/add"
    some (if isAdd then "add_to_cart" else "remove_from_cart")
  else none

/-- The classification made by the `load` listener of the wrapped `open`. -/
def xhrEventType (url : String) : Option String :=
  if includes url "/cart/add" || includes url "/cart/change" then
    let isAdd := includes url "/cart/add"
    some (if isAdd then "add_to_cart" else "remove_from_cart")
  else none

/-- What the script sees of a response: its `ok` flag and what `clone().json()`
resolves to. -/
structure Response where
  ok : Bool
  json : Except JSError JSVal

/-- The wrapped `window.fetch` for a request whose URL (`input` itself, or `input.url`) is
`url`, where `original` is the outcome of the original `fetch`: the new state and what
the caller receives. A throw inside the `try` is logged and thrown again. -/
def interceptFetch (env : Env) (url : String) (original : Except JSError Response)
    (s : State) : State × Except JSError Response :=
  match fetchEventType url with
  | some eventType =>
    match original with
    | .error e => (s, .error e)
    | .ok response =>
      if response.ok then
        match response.json with
        | .error e => (s, .error e)
        | .ok data =>
          match emitCartEvent env eventType data s with
          | .error e => (s, .error e)
          | .ok s1 => (s1, .ok response)
      else (s, .ok response)
  | none => (s, original)

/-- The `load` listener installed by the wrapped `XMLHttpRequest.prototype.open` for a
request to `url`; `responseJson` is the outcome of `JSON.parse(this.responseText)`.
A throw inside the `try` is logged and dropped. -/
def xhrOnLoad (env : Env) (url : String) (responseJson : Except JSError JSVal)
    (s : State) : State :=
  match xhrEventType url with
  | some eventType =>
    match responseJson with
    | .error _ => s
    | .ok responseData =>
      match emitCartEvent env eventType responseData s with
      | .error _ => s
      | .ok s1 => s1
  | none => s

/-! ## Checkout events -/

/-- Indexed read `v[i]`: a `TypeError` on `undefined` and `null`. -/
def getIndex (v : JSVal) (i : Nat) : Except JSError JSVal :=
  match v with
  | .undefined => .error .typeError
  | .null => .error .typeError
  | .arr xs => .ok (xs.getD i .undefined)
  | .obj o => .ok (Obj.get o (toString i))
  | .str t =>
    match t.data.get? i with
    | some ch => .ok (.str (String.singleton ch))
    | none => .ok .undefined
  | _ => .ok .undefined

/-- One step `base?.k` of an optional chain, with `rest` the remainder of the chain:
a nullish `base` makes the whole chain `undefined`. -/
def optChain (base : JSVal) (k : String) (rest : JSVal → Except JSError JSVal) :
    Except JSError JSVal :=
  if nullish base then .ok .undefined
  else do
    let v ← getProp base k
    rest v

/-- The chain `event.data?.checkout` followed by `rest`; reading `event.data` throws
when `event` itself is nullish. -/
def checkoutChain (event : JSVal) (rest : JSVal → Except JSError JSVal) :
    Except JSError JSVal := do
  let data ← getProp event "data"
  optChain data "checkout" rest

/-- The chain `event.data?.checkout?.discountApplications[0]?.k`: only `checkout` is
guarded, so the indexed read is made on whatever `discountApplications` holds. -/
def firstDiscount (event : JSVal) (k : String) : Except JSError JSVal :=
  checkoutChain event fun c => optChain c "discountApplications" fun apps => do
    let first ← getIndex apps 0
    optChain first k pure

/-- The callback of `lineItems.map` in `checkoutEcom`. -/
def checkoutItem (item : JSVal) : Except JSError JSVal := do
  let variant ← getProp item "variant"
  let item_id ← optChain variant "product" fun p => optChain p "id" pure
  let variant_id ← optChain variant "id" pure
  let item_name ← getProp item "title"
  let allocations ← getProp item "discountAllocations"
  let coupon ← optChain allocations "discountApplication" fun a => optChain a "title" pure
  let discount ← optChain allocations "amount" fun a => optChain a "amount" pure
  let item_variant ← optChain variant "title" pure
  let price ← optChain variant "price" fun a => optChain a "amount" pure
  let quantity ← getProp item "quantity"
  let item_brand ← optChain variant "product" fun p => optChain p "vendor" pure
  let item_category ← optChain variant "product" fun p => optChain p "type" pure
  pure (.obj [("item_id", item_id), ("variant_id", variant_id), ("item_name", item_name),
    ("coupon", coupon), ("discount", discount), ("item_variant", item_variant),
    ("price", price), ("quantity", quantity), ("item_brand", item_brand),
    ("item_category", item_category)])

/-- `checkoutEcom(event)`; the properties are evaluated in the order of the literal. -/
def checkoutEcom (event : JSVal) : Except JSError JSVal := do
  let orderId ← checkoutChain event fun c => optChain c "order" fun o => optChain o "id" pure
  let currency ← checkoutChain event fun c => optChain c "currencyCode" pure
  let shipping ← checkoutChain event fun c => optChain c "shippingLine" fun l =>
    optChain l "price" fun p => optChain p "amount" pure
  let value ← checkoutChain event fun c => optChain c "totalPrice" fun p =>
    optChain p "amount" pure
  let discount ← firstDiscount event "amount"
  let coupon ← firstDiscount event "title"
  let tax ← checkoutChain event fun c => optChain c "totalTax" fun p =>
    optChain p "amount" pure
  let lineItems ← checkoutChain event fun c => optChain c "lineItems" pure
  let items ←
    match jsOr lineItems (.arr []) with
    | .arr xs => arrayMap checkoutItem xs
    | _ => .error .typeError
  pure (.obj [("transaction_id", jsOr orderId .null), ("currency", currency),
    ("shipping", jsOr shipping (.num (.fin 0))), ("value", jsOr value (.num (.fin 0))),
    ("discount", jsOr discount (.num (.fin 0))), ("coupon", jsOr coupon .null),
    ("tax", jsOr tax (.num (.fin 0))), ("items", .arr items)])

/-- `getUserData(usrData)`; the three hashes are joined before the record is built. -/
def getUserData (env : Env) (usrData : JSVal) : Except JSError JSVal := do
  let email ← getProp usrData "email"
  let firstName ← getProp usrData "firstName"
  let lastName ← getProp usrData "lastName"
  let shaEmail := env.sha256 email
  let shaFirstName := env.sha256 firstName
  let shaLastName := env.sha256 lastName
  let email1 ← optChain usrData "email" pure
  let first_name ← optChain usrData "shippingAddress" fun a => optChain a "firstName" pure
  let last_name ← optChain usrData "shippingAddress" fun a => optChain a "lastName" pure
  let phone ← optChain usrData "phone" pure
  let country ← optChain usrData "shippingAddress" fun a => optChain a "country" pure
  pure (.obj [("sha256_email_address", shaEmail), ("sha256_first_name", shaFirstName),
    ("sha256_last_name", shaLastName), ("email", email1), ("first_name", first_name),
    ("last_name", last_name), ("phone", phone), ("country", country)])

/-- The subscriber of `checkout_completed`. -/
def checkoutCompletedHandler (env : Env) (event : JSVal) (s : State) :
    Except JSError State := do
  let checkout ← checkoutChain event pure
  let userData ← getUserData env (jsOr checkout (.obj []))
  let ecom ← checkoutEcom event
  let context ← getProp event "context"
  let document ← getProp context "document"
  let location ← getProp document "location"
  let href ← getProp location "href"
  let id ← getProp event "id"
  let timestamp ← getProp event "timestamp"
  let token ← checkoutChain event fun c => optChain c "token" pure
  let client_id ← getProp event "clientId"
  let eventValues : JSVal :=
    .obj [("event", .str "purchase"), ("ecommerce", jsOr ecom (.obj [])),
      ("user_data", userData), ("page_location", href), ("id", id),
      ("timestamp", timestamp), ("token", token), ("client_id", client_id)]
  pure (_trackObj eventValues s)

/-- The subscriber of `checkout_started`. -/
def checkoutStartedHandler (env : Env) (event : JSVal) (s : State) :
    Except JSError State := do
  let checkout ← checkoutChain event pure
  let userData ← getUserData env (jsOr checkout (.obj []))
  let ecom ← checkoutEcom event
  let context ← getProp event "context"
  let document ← getProp context "document"
  let location ← getProp document "location"
  let href ← getProp location "href"
  let id ← getProp event "id"
  let timestamp ← getProp event "timestamp"
  let token ← checkoutChain event fun c => optChain c "token" pure
  let client_id ← getProp event "clientId"
  let eventValues : JSVal :=
    .obj [("event", .str "begin_checkout"), ("ecommerce", jsOr ecom (.obj [])),
      ("user_data", userData), ("page_location", href), ("id", id),
      ("timestamp", timestamp), ("token", token), ("client_id", client_id)]
  pure (_trackObj eventValues s)

/-- The subscriber of `payment_info_submitted`. -/
def paymentInfoSubmittedHandler (env : Env) (event : JSVal) (s : State) :
    Except JSError State := do
  let checkout ← checkoutChain event pure
  let userData ← getUserData env (jsOr checkout (.obj []))
  let ecom ← checkoutEcom event
  let context ← getProp event "context"
  let document ← getProp context "document"
  let location ← getProp document "location"
  let href ← getProp location "href"
  let id ← getProp event "id"
  let timestamp ← getProp event "timestamp"
  let token ← checkoutChain event fun c => optChain c "token" pure
  let client_id ← getProp event "clientId"
  let eventValues : JSVal :=
    .obj [("event", .str "add_payment_info"), ("ecommerce", jsOr ecom (.obj [])),
      ("user_data", userData), ("page_location", href), ("id", id),
      ("timestamp", timestamp), ("token", token), ("client_id", client_id)]
  pure (_trackObj eventValues s)

/-- The subscriber of `checkout_shipping_info_submitted`. -/
def checkoutShippingInfoSubmittedHandler (env : Env) (event : JSVal) (s : State) :
    Except JSError State := do
  let checkout ← checkoutChain event pure
  let userData ← getUserData env (jsOr checkout (.obj []))
  let ecom ← checkoutEcom event
  let context ← getProp event "context"
  let document ← getProp context "document"
  let location ← getProp document "location"
  let href ← getProp location "href"
  let id ← getProp event "id"
  let timestamp ← getProp event "timestamp"
  let token ← checkoutChain event fun c => optChain c "token" pure
  let client_id ← getProp event "clientId"
  let eventValues : JSVal :=
    .obj [("event", .str "add_shipping_info"), ("ecommerce", jsOr ecom (.obj [])),
      ("user_data", userData), ("page_location", href), ("id", id),
      ("timestamp", timestamp), ("token", token), ("client_id", client_id)]
  pure (_trackObj eventValues s)

/-- The calls of `analytics.subscribe`, in the order of the source: topic and
subscriber. -/
def subscriptions : List (String × (Env → JSVal → State → Except JSError State)) :=
  [("checkout_completed", checkoutCompletedHandler),
   ("checkout_started", checkoutStartedHandler),
   ("payment_info_submitted", paymentInfoSubmittedHandler),
   ("checkout_shipping_info_submitted", checkoutShippingInfoSubmittedHandler)]

/-- The subscriber registered for `topic`, if any. -/
def subscriberOf (topic : String) : Option (Env → JSVal → State → Except JSError State) :=
  (subscriptions.find? fun p => p.1 == topic).map fun p => p.2

/-- The payload every checkout subscriber builds, apart from its `event` name: the
commerce object, the user data, the page URL, the notification id and timestamp, the
checkout token and the client id. -/
def checkoutFields (env : Env) (event : JSVal) : Except JSError Obj := do
  let checkout ← checkoutChain event pure
  let userData ← getUserData env (jsOr checkout (.obj []))
  let ecom ← checkoutEcom event
  let context ← getProp event "context"
  let document ← getProp context "document"
  let location ← getProp document "location"
  let href ← getProp location "href"
  let id ← getProp event "id"
  let timestamp ← getProp event "timestamp"
  let token ← checkoutChain event fun c => optChain c "token" pure
  let client_id ← getProp event "clientId"
  pure [("ecommerce", jsOr ecom (.obj [])), ("user_data", userData),
    ("page_location", href), ("id", id), ("timestamp", timestamp), ("token", token),
    ("client_id", client_id)]

/-- The single parameterised handler the spec asks for: the common payload under the
event name `eventName`, pushed to the queue. -/
def parameterisedCheckoutHandler (eventName : String) (env : Env) (event : JSVal)
    (s : State) : Except JSError State := do
  let fields ← checkoutFields env event
  pure (_trackObj (.obj (("event", .str eventName) :: fields)) s)

/-! ## Page events -/

/-- `determinePageEvent()`. Reading `cosd.template_name.toLowerCase()` throws unless
`template_name` is a string. -/
def determinePageEvent (env : Env) (s : State) : Except JSError State := do
  let template ←
    match Obj.get env.cosd "template_name" with
    | .str t => pure (env.toLowerCase t)
    | _ => .error .typeError
  let eventPayload : Option JSVal ←
    if includes template "product" then do
      let first ← getIndex (Obj.get env.cosd "items") 0
      let price ← optChain first "price" pure
      pure (some (.obj [("event", .str "view_item"),
        ("ecommerce", .obj [("currency", Obj.get env.cosd "currency"),
          ("value", jsOr price (.num (.fin 0))), ("items", Obj.get env.cosd "items")])]))
    else if includes template "collection" then do
      let title ← optChain (Obj.get env.cosd "collection") "collection_title" pure
      let id ← optChain (Obj.get env.cosd "collection") "collection_id" pure
      pure (some (.obj [("event", .str "view_item_list"),
        ("ecommerce", .obj [("item_list_name", jsOr title (.str "")),
          ("item_list_id", jsOr id (.str "")), ("items", Obj.get env.cosd "items")])]))
    else if includes template "cart" then
      pure (some (.obj [("event", .str "view_cart"),
        ("ecommerce", .obj [("currency", Obj.get env.cosd "currency"),
          ("value", jsOr (Obj.get env.cosd "total") (.num (.fin 0))),
          ("items", Obj.get env.cosd "cart_items")])]))
    else pure none
  match eventPayload with
  | some payload => pure (_trackObj payload s)
  | none => pure s

/-! ## Call sequences -/

/-- One call of a consent-store or tag-loader function. -/
inductive Call where
  | setDefaultConsent (consentSettings : Obj)
  | initTagManager (now : Nat)
  | consentUpdate (updatedPrivacy : Obj)

/-- The effect of one call. -/
def Call.run (env : Env) (c : Call) (s : State) : State :=
  match c with
  | .setDefaultConsent consentSettings => Corestad.setDefaultConsent consentSettings s
  | .initTagManager now => Corestad.initTagManager env now s
  | .consentUpdate updatedPrivacy => Corestad.consentUpdate updatedPrivacy s

/-- The effect of a sequence of calls, first call first. -/
def runCalls (env : Env) (calls : List Call) (s : State) : State :=
  calls.foldl (fun st c => c.run env st) s

/-- Whether a call is `initTagManager`. -/
def Call.isInit : Call → Bool
  | .initTagManager _ => true
  | _ => false

/-- Whether a call is `setDefaultConsent`. -/
def Call.isSetDefault : Call → Bool
  | .setDefaultConsent _ => true
  | _ => false

/-- The number of `setDefaultConsent` calls made before the first `initTagManager`. -/
def defaultsBeforeInit (calls : List Call) : Nat :=
  ((calls.takeWhile fun c => !c.isInit).filter Call.isSetDefault).length

/-- The number of `defaultConsent` records in a queue. -/
def countDefaultConsent (q : List JSVal) : Nat := (q.filter (isEvent "defaultConsent")).length

/-- The queue of `s1` is the queue of `s` followed by records that each carry a string
`event` field. -/
def AppendsEvents (s s1 : State) : Prop :=
  ∃ added : List JSVal, s1.dataLayer = s.dataLayer ++ added ∧
    ∀ r ∈ added, ∃ name : String, eventOf r = .str name

/-- What the `load` listener can see of the request object `this`: its HTTP `status` and
the outcome of `JSON.parse(this.responseText)`. -/
structure XhrResult where
  status : Nat
  responseJson : Except JSError JSVal

/-- The `load` listener applied to the request object: it reads `responseText` only and
never the status. -/
def xhrLoadListener (env : Env) (url : String) (this : XhrResult) (s : State) : State :=
  xhrOnLoad env url this.responseJson s

/-- The cookie `name` is present with value `v`: the host returns the non-empty string
`v` for it. -/
def CookiePresent (env : Env) (name v : String) : Prop :=
  env.cookie name = some v ∧ v ≠ ""

/-- The cookie `name` is absent: the host returns nothing, or the empty string. -/
def CookieAbsent (env : Env) (name : String) : Prop :=
  ∀ v : String, env.cookie name = some v → v = ""

/-! ## Sample hosts, used to instantiate the theorems -/

/-- The `gtmConfig` shipped in the source file. -/
def shippedGtm : GtmConfig :=
  { gtm_id := "GTM-XXXXXXX", gtm_url := "https://www.googletagmanager.com/" }

/-- The `privacyConfig` shipped in the source file. -/
def shippedPrivacy : PrivacyConfig :=
  { cs := false, cm := true, cgtm := true, cshy := false,
    store_managed := false, store_implement := false, cm_default := uConsent0 }

/-- A sample cookie decoder: it knows two well-formed cookie values and one that is JSON
without `purposes`; every other string is malformed. -/
def sampleParse (c : String) : Except JSError JSVal :=
  if c = "analytics-only" then
    .ok (.obj [("purposes", .obj [("m", .bool false), ("a", .bool true)])])
  else if c = "all-granted" then
    .ok (.obj [("purposes", .obj [("m", .bool true), ("a", .bool true)])])
  else if c = "no-purposes" then
    .ok (.obj [])
  else .error .syntaxError

/-- A sample division: the exact quotient of two finite operands, `NaN` in every other
case. It gives what binary64 division gives whenever the exact quotient of two doubles
is itself a double, as in the examples evaluated below. -/
def sampleDiv : JSNum → JSNum → JSNum
  | .fin a, .fin b => if b = 0 then .nan else .fin (a / b)
  | _, _ => .nan

/-- A sample multiplication: the exact product of two finite operands, `NaN` in every
other case; the same caveat applies as for `sampleDiv`. -/
def sampleMul : JSNum → JSNum → JSNum
  | .fin a, .fin b => .fin (a * b)
  | _, _ => .nan

/-- A sample host: configuration `cfg`, the cookie `_tracking_consent` holding
`cookieValue`, no other cookie, the sample arithmetic. -/
def sampleEnv (cfg : PrivacyConfig) (cookieValue : Option String) : Env :=
  { privacyConfig := cfg
    gtmConfig := shippedGtm
    cookie := fun name => if name = "_tracking_consent" then cookieValue else none
    parseCookie := sampleParse
    cosd := [("currency", .str "EUR")]
    strToNumber := fun _ => .nan
    arrToNumber := fun _ => .ok .nan
    numDiv := sampleDiv
    numMul := sampleMul
    sha256 := fun _ => .str ""
    toLowerCase := fun t => String.mk (t.data.map Char.toLower) }

/-- Strict mode, consent mode on, platform-hosted CMP. -/
def strictShopify : PrivacyConfig :=
  { shippedPrivacy with cs := true, cgtm := false, cshy := true }

/-- Lax mode, consent mode on, custom CMP. -/
def laxCustom : PrivacyConfig :=
  { shippedPrivacy with cgtm := false, cshy := false }

/-- Strict mode, consent mode on, custom CMP. -/
def strictCustom : PrivacyConfig :=
  { shippedPrivacy with cs := true, cgtm := false, cshy := false }

/-- Store-managed consent, container not placed by the store. -/
def storeManaged : PrivacyConfig :=
  { shippedPrivacy with cm := true, cgtm := false, store_managed := true }

/-- The cart response of the multi-item example: one entry of 1000 minor units. -/
def multiItemResponse : Obj :=
  [("items", .arr [.obj [("product_id", .num (.fin 1)), ("price", .num (.fin 1000)),
      ("quantity", .num (.fin 1))]]),
   ("total_price", .num (.fin 1000))]

/-- The cart response of the single-item example: two shirts of 2500 minor units. -/
def shirtResponse : Obj :=
  [("product_id", .num (.fin 1)), ("title", .str "Shirt"), ("price", .num (.fin 2500)),
   ("quantity", .num (.fin 2))]

/-! ## Basic facts -/

theorem strictEqStr_iff (v : JSVal) (t : String) : strictEqStr v t = true ↔ v = .str t := by
  cases v <;> simp [strictEqStr]

theorem hasRequiredConsent_iff (c : JSVal) : hasRequiredConsent c = true ↔ BothGranted c := by
  cases c <;>
    simp [hasRequiredConsent, BothGranted, truthy, getProp, strictEqStr_iff]

theorem loadPrivacySettings_config (env : Env) (dP : PrivacySettings)
    (h : loadPrivacySettings env = .ok dP) : dP.toPrivacyConfig = env.privacyConfig := by
  unfold loadPrivacySettings at h
  split at h
  · cases h; rfl
  · simp only [bind, Except.bind, pure, Except.pure] at h
    repeat' split at h
    all_goals first | cases h; rfl | cases h

theorem initTagManager_loaded (env : Env) (now : Nat) (s : State) :
    (initTagManager env now s).gtmLoaded = true := by
  unfold initTagManager
  split <;> simp_all

/-! ## The strict branch -/

/-- C1: in strict mode with both store flags off, a resolved run of `initAllScripts`
returns; it sets the loaded flag only if the consent it gates on has `ad_storage` and
`analytics_storage` both `"granted"` (and does set it then); when that consent lacks
either grant the state is left exactly as it was (nothing appended, flag untouched); in
particular a gated consent with `ad_storage: "denied"` never initialises the tag
loader. -/
theorem strict_mode_requires_both_grants (env : Env) (now : Nat) (s : State)
    (dP : PrivacySettings) (hres : loadPrivacySettings env = .ok dP)
    (hcs : env.privacyConfig.cs = true)
    (hsm : env.privacyConfig.store_managed = false)
    (hsi : env.privacyConfig.store_implement = false) :
    ∃ s1 : State, initAllScripts env now s = .ok s1 ∧
      (s.gtmLoaded = false → s1.gtmLoaded = true → BothGranted (gatedConsent dP s)) ∧
      (BothGranted (gatedConsent dP s) → s1.gtmLoaded = true) ∧
      (¬ BothGranted (gatedConsent dP s) → s1 = s) ∧
      (∀ o : Obj, gatedConsent dP s = .obj o → Obj.get o "ad_storage" = .str "denied" →
        s1 = s) := by
  have hcfg := loadPrivacySettings_config env dP hres
  have hcs1 : dP.cs = true := by rw [hcfg]; exact hcs
  have key : ¬ BothGranted (gatedConsent dP s) → initAllScriptsWith env now dP s = s := by
    intro hng
    rw [← hasRequiredConsent_iff] at hng
    unfold initAllScriptsWith
    simp only [hsm, hsi, hcs1]
    unfold gatedConsent at hng
    cases hcm : dP.cm <;> cases hg : dP.cgtm <;> cases hy : dP.cshy <;>
      simp_all
  refine ⟨initAllScriptsWith env now dP s, ?_, ?_, ?_, key, ?_⟩
  · simp [initAllScripts, hres]
  · intro h0 h1
    by_contra hng
    rw [key hng] at h1
    simp [h0] at h1
  · intro hg
    rw [← hasRequiredConsent_iff] at hg
    unfold initAllScriptsWith
    simp only [hsm, hsi, hcs1]
    unfold gatedConsent at hg
    cases hcm : dP.cm <;> cases hgt : dP.cgtm <;> cases hy : dP.cshy <;>
      simp_all [initTagManager_loaded, consentUpdate, _trackObj]
  · intro o ho hden
    apply key
    rintro ⟨o1, h1, h2, -⟩
    rw [ho] at h1
    cases h1
    rw [hden] at h2
    simp at h2

theorem strict_mode_requires_both_grants_witness :
    loadPrivacySettings (sampleEnv strictShopify (some "analytics-only")) =
        .ok { toPrivacyConfig := strictShopify,
              cm_shfy := some [("ad_storage", .str "denied"),
                ("analytics_storage", .str "granted"), ("ad_user_data", .str "denied"),
                ("ad_personalization", .str "denied")] } ∧
      ∃ s1 : State,
        initAllScripts (sampleEnv strictShopify (some "analytics-only")) 7 State.init =
          .ok s1 ∧ s1 = State.init := by
  have hres : loadPrivacySettings (sampleEnv strictShopify (some "analytics-only")) =
      .ok { toPrivacyConfig := strictShopify,
            cm_shfy := some [("ad_storage", .str "denied"),
              ("analytics_storage", .str "granted"), ("ad_user_data", .str "denied"),
              ("ad_personalization", .str "denied")] } := by rfl
  refine ⟨hres, ?_⟩
  obtain ⟨s1, h1, -, -, -, h4⟩ :=
    strict_mode_requires_both_grants (sampleEnv strictShopify (some "analytics-only")) 7
      State.init _ hres rfl rfl rfl
  exact ⟨s1, h1, h4 _ rfl rfl⟩

/-! ## The lax branch -/

/-- C2: in lax mode with both store flags off, every resolved run of `initAllScripts`
returns with the loaded flag set (and, from the unloaded state, with the script
inserted); the records it appends hold exactly one `consent_update` tracking event when
`cgtm` is false and none when `cgtm` is true, in which case no consent record of any
kind is appended. -/
theorem lax_mode_always_initialises (env : Env) (now : Nat) (s : State)
    (dP : PrivacySettings) (hres : loadPrivacySettings env = .ok dP)
    (hcs : env.privacyConfig.cs = false)
    (hsm : env.privacyConfig.store_managed = false)
    (hsi : env.privacyConfig.store_implement = false) :
    ∃ (s1 : State) (added : List JSVal), initAllScripts env now s = .ok s1 ∧
      s1.gtmLoaded = true ∧
      (s.gtmLoaded = false → s1.scripts = scriptSrc env.gtmConfig "dataLayer" :: s.scripts) ∧
      s1.dataLayer = s.dataLayer ++ added ∧
      (added.filter (isEvent "consent_update")).length =
        (if env.privacyConfig.cgtm then 0 else 1) ∧
      (env.privacyConfig.cgtm = true → ∀ r ∈ added, isConsentRecord r = false) := by
  have hcfg := loadPrivacySettings_config env dP hres
  have hcs1 : dP.cs = false := by rw [hcfg]; exact hcs
  have hg1 : env.privacyConfig.cgtm = dP.cgtm := by rw [hcfg]
  refine ⟨initAllScriptsWith env now dP s,
    (initAllScriptsWith env now dP s).dataLayer.drop s.dataLayer.length, ?_⟩
  refine ⟨by simp [initAllScripts, hres], ?_⟩
  unfold initAllScriptsWith
  simp only [hsm, hsi, hcs1, hg1]
  cases hcm : dP.cm <;> cases hg : dP.cgtm <;> cases hy : dP.cshy <;>
    cases hl : s.gtmLoaded <;>
    simp [initTagManager, setDefaultConsent, consentUpdate, _trackObj, hl,
      isEvent, isConsentRecord, eventOf, Obj.get, strictEqStr, consentEvent, bootstrapRecord,
      defaultConsentRecord, consentUpdateRecord]

theorem lax_mode_always_initialises_witness :
    loadPrivacySettings (sampleEnv laxCustom none) =
        .ok { toPrivacyConfig := laxCustom, cm_shfy := none } ∧
      ∃ (s1 : State) (added : List JSVal),
        initAllScripts (sampleEnv laxCustom none) 7 State.init = .ok s1 ∧
        s1.gtmLoaded = true ∧
        s1.dataLayer = State.init.dataLayer ++ added ∧
        (added.filter (isEvent "consent_update")).length = 1 := by
  have hres : loadPrivacySettings (sampleEnv laxCustom none) =
      .ok { toPrivacyConfig := laxCustom, cm_shfy := none } := by rfl
  refine ⟨hres, ?_⟩
  obtain ⟨s1, added, h1, h2, -, h4, h5, -⟩ :=
    lax_mode_always_initialises (sampleEnv laxCustom none) 7 State.init _ hres rfl rfl rfl
  exact ⟨s1, added, h1, h2, h4, h5⟩

/-! ## The store flags -/

/-- C3: for every configuration and resolved consent, when `store_managed` is set and
`store_implement` is not, `initAllScripts` does exactly what `initTagManager` does: the
loaded flag ends set and the queue gains the bootstrap record alone (nothing when the
loader had already run), whatever `cs`, `cm`, `cgtm`, `cshy` and the consent are; when
`store_implement` is set the state, queue and loaded flag included, is unchanged. -/
theorem store_flags_decide_first (env : Env) (now : Nat) (s : State)
    (dP : PrivacySettings) (hres : loadPrivacySettings env = .ok dP) :
    (env.privacyConfig.store_managed = true → env.privacyConfig.store_implement = false →
      initAllScripts env now s = .ok (initTagManager env now s) ∧
      (initTagManager env now s).gtmLoaded = true ∧
      (initTagManager env now s).dataLayer =
        s.dataLayer ++ (if s.gtmLoaded then [] else [bootstrapRecord now]) ∧
      (initTagManager env now s).uConsent = s.uConsent) ∧
    (env.privacyConfig.store_implement = true → initAllScripts env now s = .ok s) := by
  constructor
  · intro hsm hsi
    refine ⟨by simp [initAllScripts, hres, initAllScriptsWith, hsm, hsi], ?_⟩
    cases hl : s.gtmLoaded <;> simp [initTagManager, hl]
  · intro hsi
    simp [initAllScripts, hres, initAllScriptsWith, hsi]

theorem store_flags_decide_first_witness :
    loadPrivacySettings (sampleEnv storeManaged (some "all-granted")) =
        .ok { toPrivacyConfig := storeManaged,
              cm_shfy := some [("ad_storage", .str "granted"),
                ("analytics_storage", .str "granted"), ("ad_user_data", .str "granted"),
                ("ad_personalization", .str "granted")] } ∧
      initAllScripts (sampleEnv storeManaged (some "all-granted")) 7 State.init =
        .ok (initTagManager (sampleEnv storeManaged (some "all-granted")) 7 State.init) :=
  ⟨rfl, ((store_flags_decide_first (sampleEnv storeManaged (some "all-granted")) 7
    State.init _ rfl).1 rfl rfl).1⟩

/-! ## The tag loader -/

/-- C4: `initTagManager` is idempotent. A second call, at any later clock reading, leaves
the state of the first call unchanged, and so does any further number of calls; after
the first call the loaded flag is set and stays set; starting from the unloaded state,
any `n >= 1` calls insert exactly one script element and append exactly one record, the
`gtm.js` bootstrap record of the first call. -/
theorem initTagManager_idempotent (env : Env) (t t2 : Nat) (ts : List Nat) (s : State) :
    initTagManager env t2 (initTagManager env t s) = initTagManager env t s ∧
    initTagManagerCalls env (t :: ts) s = initTagManager env t s ∧
    (initTagManagerCalls env (t :: ts) s).gtmLoaded = true ∧
    (s.gtmLoaded = false →
      (initTagManagerCalls env (t :: ts) s).scripts =
        scriptSrc env.gtmConfig "dataLayer" :: s.scripts ∧
      (initTagManagerCalls env (t :: ts) s).dataLayer = s.dataLayer ++ [bootstrapRecord t] ∧
      isEvent "gtm.js" (bootstrapRecord t) = true) := by
  have once : ∀ (u : Nat) (st : State), st.gtmLoaded = true → initTagManager env u st = st := by
    intro u st h
    simp [initTagManager, h]
  have many : ∀ (us : List Nat) (st : State), st.gtmLoaded = true →
      initTagManagerCalls env us st = st := by
    intro us
    induction us with
    | nil => intro st _; rfl
    | cons u us ih =>
      intro st h
      simp only [initTagManagerCalls, List.foldl_cons]
      rw [once u st h]
      exact ih st h
  have hcalls : initTagManagerCalls env (t :: ts) s = initTagManager env t s := by
    simp only [initTagManagerCalls, List.foldl_cons]
    exact many ts _ (initTagManager_loaded env t s)
  refine ⟨once t2 _ (initTagManager_loaded env t s), hcalls, ?_, ?_⟩
  · rw [hcalls]; exact initTagManager_loaded env t s
  · intro hl
    rw [hcalls]
    simp [initTagManager, hl, isEvent, eventOf, Obj.get, strictEqStr, bootstrapRecord]

theorem initTagManager_idempotent_witness :
    (initTagManagerCalls (sampleEnv shippedPrivacy none) [7, 8, 9] State.init).scripts =
        ["https://www.googletagmanager.com/gtm.js?id=GTM-XXXXXXX"] ∧
      (initTagManagerCalls (sampleEnv shippedPrivacy none) [7, 8, 9] State.init).dataLayer =
        [bootstrapRecord 7] := by
  obtain ⟨-, -, -, h⟩ :=
    initTagManager_idempotent (sampleEnv shippedPrivacy none) 7 0 [8, 9] State.init
  obtain ⟨h1, h2, -⟩ := h rfl
  exact ⟨by rw [h1]; decide, by rw [h2]; rfl⟩

/-! ## Cookie parsing -/

/-- C5 (the code at the failing inputs): when a consent cookie is present and decoding it
throws `e` (the value is not valid JSON), `loadPrivacySettings` throws `e` instead of
returning the static configuration, and `initAllScripts` throws with it before any
branch runs; when the decoded value is an object whose `purposes` is missing, both throw
a `TypeError`. -/
theorem loadPrivacySettings_throws_on_malformed_cookie (env : Env) (c : String)
    (hc : loadCookieConsentData env = some c) :
    (∀ e : JSError, env.parseCookie c = .error e →
      loadPrivacySettings env = .error e ∧
      ∀ (now : Nat) (s : State), initAllScripts env now s = .error e) ∧
    (∀ o : Obj, env.parseCookie c = .ok (.obj o) → nullish (Obj.get o "purposes") = true →
      loadPrivacySettings env = .error .typeError ∧
      ∀ (now : Nat) (s : State), initAllScripts env now s = .error .typeError) := by
  constructor
  · intro e he
    have h : loadPrivacySettings env = .error e := by
      simp [loadPrivacySettings, hc, he, bind, Except.bind]
    exact ⟨h, fun now s => by simp [initAllScripts, h]⟩
  · intro o ho hn
    have h : loadPrivacySettings env = .error .typeError := by
      cases hp : Obj.get o "purposes" <;> rw [hp] at hn <;>
        simp_all [loadPrivacySettings, bind, Except.bind, getProp, nullish]
    exact ⟨h, fun now s => by simp [initAllScripts, h]⟩

theorem loadPrivacySettings_throws_on_malformed_cookie_witness :
    loadCookieConsentData (sampleEnv shippedPrivacy (some "not json")) = some "not json" ∧
      loadPrivacySettings (sampleEnv shippedPrivacy (some "not json")) =
        .error .syntaxError ∧
      initAllScripts (sampleEnv shippedPrivacy (some "not json")) 7 State.init =
        .error .syntaxError ∧
      loadPrivacySettings (sampleEnv shippedPrivacy (some "no-purposes")) =
        .error .typeError :=
  ⟨rfl,
   ((loadPrivacySettings_throws_on_malformed_cookie
      (sampleEnv shippedPrivacy (some "not json")) "not json" rfl).1 .syntaxError rfl).1,
   ((loadPrivacySettings_throws_on_malformed_cookie
      (sampleEnv shippedPrivacy (some "not json")) "not json" rfl).1 .syntaxError rfl).2 7
      State.init,
   ((loadPrivacySettings_throws_on_malformed_cookie
      (sampleEnv shippedPrivacy (some "no-purposes")) "no-purposes" rfl).2 [] rfl rfl).1⟩

/-! ## Checkout payloads -/

theorem getProp_total (v : JSVal) (k : String) (h : nullish v = false) :
    ∃ w, getProp v k = .ok w := by
  cases v <;> simp_all [getProp, nullish]

theorem optChain_nullish (b : JSVal) (k : String) (rest : JSVal → Except JSError JSVal)
    (h : nullish b = true) : optChain b k rest = .ok .undefined := by
  simp [optChain, h]

theorem optChain_total (b : JSVal) (k : String) (rest : JSVal → Except JSError JSVal)
    (h : ∀ v, ∃ w, rest v = .ok w) : ∃ w, optChain b k rest = .ok w := by
  unfold optChain
  cases hb : nullish b
  · obtain ⟨v, hv⟩ := getProp_total b k hb
    simpa [hv, bind, Except.bind] using h v
  · simp

theorem pure_total (v : JSVal) : ∃ w, (pure v : Except JSError JSVal) = .ok w := ⟨v, rfl⟩

theorem checkoutChain_eq (event c : JSVal) (rest : JSVal → Except JSError JSVal)
    (hc : checkoutChain event pure = .ok c) (hrest : rest .undefined = .ok .undefined) :
    checkoutChain event rest = rest c := by
  unfold checkoutChain at hc ⊢
  cases hd : getProp event "data" with
  | error e => simp [hd, bind, Except.bind] at hc
  | ok data =>
    simp only [hd, bind, Except.bind, optChain] at hc ⊢
    cases hn : nullish data
    · obtain ⟨v, hv⟩ := getProp_total data "checkout" hn
      simp only [hn, hv, pure, Except.pure] at hc ⊢
      simp at hc ⊢
      rw [hc]
    · simp only [hn] at hc ⊢
      simp at hc ⊢
      rw [← hc, hrest]

theorem arrayMap_total (f : JSVal → Except JSError JSVal) (R : JSVal → JSVal → Prop)
    (xs : List JSVal) (h : ∀ x ∈ xs, ∃ y, f x = .ok y ∧ R x y) :
    ∃ ys, arrayMap f xs = .ok ys ∧ List.Forall₂ R xs ys := by
  induction xs with
  | nil => exact ⟨[], rfl, List.Forall₂.nil⟩
  | cons x xs ih =>
    obtain ⟨y, hy, hr⟩ := h x (List.mem_cons_self x xs)
    obtain ⟨ys, hys, hall⟩ := ih (fun z hz => h z (List.mem_cons_of_mem x hz))
    exact ⟨y :: ys, by simp [arrayMap, hy, hys, bind, Except.bind, pure, Except.pure],
      List.Forall₂.cons hr hall⟩

theorem checkoutItem_total (item : JSVal) (h : nullish item = false) :
    ∃ y, checkoutItem item = .ok y := by
  unfold checkoutItem
  obtain ⟨variant, hv⟩ := getProp_total item "variant" h
  obtain ⟨title, ht⟩ := getProp_total item "title" h
  obtain ⟨alloc, ha⟩ := getProp_total item "discountAllocations" h
  obtain ⟨quantity, hq⟩ := getProp_total item "quantity" h
  have two : ∀ (b : JSVal) (k1 k2 : String),
      ∃ w, optChain b k1 (fun a => optChain a k2 pure) = .ok w :=
    fun b k1 k2 => optChain_total b k1 _ (fun a => optChain_total a k2 _ pure_total)
  obtain ⟨v1, h1⟩ := two variant "product" "id"
  obtain ⟨v2, h2⟩ := optChain_total variant "id" _ pure_total
  obtain ⟨v3, h3⟩ := two alloc "discountApplication" "title"
  obtain ⟨v4, h4⟩ := two alloc "amount" "amount"
  obtain ⟨v5, h5⟩ := optChain_total variant "title" _ pure_total
  obtain ⟨v6, h6⟩ := two variant "price" "amount"
  obtain ⟨v7, h7⟩ := two variant "product" "vendor"
  obtain ⟨v8, h8⟩ := two variant "product" "type"
  simp only [hv, ht, ha, hq, h1, h2, h3, h4, h5, h6, h7, h8, bind, Except.bind]
  exact ⟨_, rfl⟩


/-- C6 (amended): for every checkout notification whose checkout payload is absent
(`event.data?.checkout` is nullish), or whose checkout holds an empty
`discountApplications` list while its line items are absent or a list without null
entries, `checkoutEcom` returns and yields `discount: 0` and `coupon: null`. -/
theorem checkoutEcom_defaults_without_discount (event c : JSVal)
    (hc : checkoutChain event pure = .ok c)
    (hd : nullish c = true ∨
      ∃ (o : Obj) (xs : List JSVal), c = .obj o ∧
        Obj.get o "discountApplications" = .arr [] ∧
        jsOr (Obj.get o "lineItems") (.arr []) = .arr xs ∧ ∀ x ∈ xs, nullish x = false) :
    ∃ r : Obj, checkoutEcom event = .ok (.obj r) ∧
      Obj.get r "discount" = .num (.fin 0) ∧ Obj.get r "coupon" = .null := by
  have two : ∀ (b : JSVal) (k1 k2 : String),
      ∃ w, optChain b k1 (fun a => optChain a k2 pure) = .ok w :=
    fun b k1 k2 => optChain_total b k1 _ (fun a => optChain_total a k2 _ pure_total)
  have hu : ∀ (k : String) (rest : JSVal → Except JSError JSVal),
      optChain .undefined k rest = .ok .undefined := fun _ _ => rfl
  unfold checkoutEcom firstDiscount
  simp only [checkoutChain_eq event c _ hc, hu]
  rcases hd with hn | ⟨o, xs, rfl, hda, hli, hxs⟩
  · simp [optChain_nullish c _ _ hn, bind, Except.bind, jsOr, truthy, arrayMap, pure,
      Except.pure, Obj.get]
  · obtain ⟨v1, h1⟩ := optChain_total (.obj o) "order" _ (fun a => optChain_total a "id" _ pure_total)
    obtain ⟨v2, h2⟩ := optChain_total (.obj o) "currencyCode" _ pure_total
    obtain ⟨v3, h3⟩ := optChain_total (.obj o) "shippingLine" _ (fun a => two a "price" "amount")
    obtain ⟨v4, h4⟩ := two (.obj o) "totalPrice" "amount"
    obtain ⟨v5, h5⟩ := two (.obj o) "totalTax" "amount"
    obtain ⟨ys, hys, -⟩ := arrayMap_total checkoutItem (fun _ _ => True) xs
      (fun x hx => (checkoutItem_total x (hxs x hx)).imp fun _ h => ⟨h, trivial⟩)
    have h6 : ∀ k : String, optChain (.obj o) "discountApplications" (fun apps => do
        let first ← getIndex apps 0
        optChain first k pure) = .ok .undefined := by
      intro k
      simp [optChain, nullish, getProp, hda, getIndex, bind, Except.bind]
    simp only [bind, Except.bind] at h6
    have h7 : optChain (.obj o) "lineItems" pure = .ok (Obj.get o "lineItems") := by
      simp [optChain, nullish, getProp, bind, Except.bind, pure, Except.pure]
    simp only [h1, h2, h3, h4, h5, h6, h7, hli, hys, bind, Except.bind]
    refine ⟨_, rfl, ?_, ?_⟩ <;> simp [Obj.get, jsOr, truthy]

theorem checkoutEcom_defaults_without_discount_witness :
    ∃ r : Obj,
      checkoutEcom (.obj [("data", .obj [("checkout", .obj
        [("discountApplications", .arr []),
         ("lineItems", .arr [.obj [("title", .str "Shirt")]])])])]) = .ok (.obj r) ∧
      Obj.get r "discount" = .num (.fin 0) ∧ Obj.get r "coupon" = .null :=
  checkoutEcom_defaults_without_discount _
    (.obj [("discountApplications", .arr []),
           ("lineItems", .arr [.obj [("title", .str "Shirt")]])])
    rfl
    (Or.inr ⟨_, [.obj [("title", .str "Shirt")]], rfl, rfl, rfl, by simp [nullish]⟩)

/-- C6 (counterexample): on a notification whose checkout payload is the empty object,
so without a `discountApplications` field, `checkoutEcom` throws a `TypeError` (the
indexed read `discountApplications[0]` is not guarded) and so does the
`checkout_completed` handler, which leaves the queue as it was; and on a notification
with no checkout payload at all the record has `discount: 0`, not `null`. -/
theorem checkoutEcom_missing_discountApplications :
    checkoutEcom (.obj [("data", .obj [("checkout", .obj [])])]) = .error .typeError ∧
    checkoutCompletedHandler (sampleEnv shippedPrivacy none)
      (.obj [("data", .obj [("checkout", .obj [])]),
             ("context", .obj [("document", .obj [("location", .obj
               [("href", .str "https://shop.example/checkouts/1")])])])])
      State.init = .error .typeError ∧
    checkoutEcom (.obj [("data", .obj [])]) =
      .ok (.obj [("transaction_id", .null), ("currency", .undefined),
        ("shipping", .num (.fin 0)), ("value", .num (.fin 0)),
        ("discount", .num (.fin 0)), ("coupon", .null),
        ("tax", .num (.fin 0)), ("items", .arr [])]) :=
  ⟨rfl, rfl, rfl⟩

/-! ## Cart events -/

theorem getProp_fieldOf (v : JSVal) (k : String) (h : nullish v = false) :
    getProp v k = .ok (fieldOf v k) := by
  cases v <;> simp_all [getProp, fieldOf, nullish]

theorem converts_primitive (env : Env) (v : JSVal) (harr : ∀ xs, v ≠ .arr xs)
    (hobj : ∀ o, v ≠ .obj o) : Converts env v := by
  cases v with
  | arr xs => exact absurd rfl (harr xs)
  | obj o => exact absurd rfl (hobj o)
  | _ => exact ⟨_, rfl⟩

theorem cartItem_spec (env : Env) (item : JSVal) (h : nullish item = false)
    (hconv : Converts env (fieldOf item "price")) :
    ∃ y, cartItem env item = .ok y ∧ MapsCartItem env item y := by
  obtain ⟨n, hn⟩ := hconv
  have hc : cartItem env item = .ok (.obj [("item_id", fieldOf item "product_id"),
      ("item_name", jsOr (fieldOf item "product_title") (fieldOf item "title")),
      ("item_brand", fieldOf item "vendor"),
      ("item_category", jsOr (fieldOf item "product_type") (.str "")),
      ("item_variant", fieldOf item "variant_id"),
      ("price", .num (env.numDiv n (.fin 100))), ("quantity", fieldOf item "quantity")]) := by
    unfold cartItem
    simp only [getProp_fieldOf item _ h, hn, bind, Except.bind, jsOr]
    cases truthy (fieldOf item "product_title") <;> rfl
  exact ⟨_, hc, _, fieldOf item "price", fieldOf item "quantity", n, rfl, hc,
    getProp_fieldOf item _ h, getProp_fieldOf item _ h, hn, by simp [Obj.get],
    by simp [Obj.get]⟩

/-- C7 (amended): for every multi-item cart response, an object whose `items` is an array
with no `null` entry, in which every entry's `price` and the response's `total_price`
convert to a number without a throw (as every number, string, boolean, `null` or absent
value does), `emitCartEvent` returns and appends exactly one event; its
`ecommerce.value` is `total_price / 100`, and its `items` list has the length and the
order of the response's `items`, the i-th line item being built from the i-th entry
with `price = items[i].price / 100` and `quantity = items[i].quantity`; `/` is the
division of the host. -/
theorem emitCartEvent_multi_item (env : Env) (eventType : String) (data : Obj)
    (xs : List JSVal) (total : JSNum) (s : State)
    (hitems : Obj.get data "items" = .arr xs)
    (hxs : ∀ x ∈ xs, nullish x = false ∧ Converts env (fieldOf x "price"))
    (htotal : toNumber env (Obj.get data "total_price") = .ok total) :
    ∃ its : List JSVal,
      emitCartEvent env eventType (.obj data) s =
        .ok { s with dataLayer := s.dataLayer ++
          [cartPayload env eventType (env.numDiv total (.fin 100)) its] } ∧
      its.length = xs.length ∧ List.Forall₂ (MapsCartItem env) xs its := by
  obtain ⟨its, hmap, hall⟩ := arrayMap_total (cartItem env) (MapsCartItem env) xs
    (fun x hx => cartItem_spec env x (hxs x hx).1 (hxs x hx).2)
  refine ⟨its, ?_, hall.length_eq.symm, hall⟩
  simp only [emitCartEvent, getProp, hitems, hmap, htotal, bind, Except.bind, pure,
    Except.pure, _trackObj, cartPayload]

theorem emitCartEvent_multi_item_witness :
    (∃ its : List JSVal,
      emitCartEvent (sampleEnv shippedPrivacy none) "add_to_cart" (.obj multiItemResponse)
          State.init =
        .ok { State.init with dataLayer := State.init.dataLayer ++
          [cartPayload (sampleEnv shippedPrivacy none) "add_to_cart"
            (sampleDiv (.fin 1000) (.fin 100)) its] } ∧
      its.length = 1 ∧
      List.Forall₂ (MapsCartItem (sampleEnv shippedPrivacy none))
        [.obj [("product_id", .num (.fin 1)), ("price", .num (.fin 1000)),
          ("quantity", .num (.fin 1))]] its) ∧
    emitCartEvent (sampleEnv shippedPrivacy none) "add_to_cart" (.obj multiItemResponse)
        State.init =
      .ok { State.init with dataLayer :=
        [.obj [("event", .str "add_to_cart"),
          ("ecommerce", .obj [("currency", .str "EUR"), ("value", .num (.fin 10)),
            ("items", .arr [.obj [("item_id", .num (.fin 1)), ("item_name", .undefined),
              ("item_brand", .undefined), ("item_category", .str ""),
              ("item_variant", .undefined), ("price", .num (.fin 10)),
              ("quantity", .num (.fin 1))]])])]] } := by
  constructor
  · exact emitCartEvent_multi_item (sampleEnv shippedPrivacy none) "add_to_cart"
      multiItemResponse _ (.fin 1000) State.init rfl
      (by
        intro x hx
        simp only [List.mem_singleton] at hx
        subst hx
        exact ⟨rfl, .fin 1000, rfl⟩)
      rfl
  · simp [emitCartEvent, getProp, Obj.get, arrayMap, cartItem, bind, Except.bind, pure,
      Except.pure, truthy, jsOr, toNumber, sampleDiv, _trackObj, State.init, sampleEnv,
      multiItemResponse]
    norm_num

/-- C7 (counterexample): the response `{items: [null], total_price: 1000}` is an object
whose `items` is an array, yet `emitCartEvent` throws a `TypeError` on reading
`item.product_id` and pushes no event; through the `load` listener the queue stays
empty. The response `{items: [{price: {toString: 0}}], total_price: 0}` throws too: the
division `item.price / 100` cannot convert the object to a number. -/
theorem emitCartEvent_null_entry_throws :
    emitCartEvent (sampleEnv shippedPrivacy none) "add_to_cart"
        (.obj [("items", .arr [.null]), ("total_price", .num (.fin 1000))]) State.init =
      .error .typeError ∧
    (xhrOnLoad (sampleEnv shippedPrivacy none) "/cart/add.js"
        (.ok (.obj [("items", .arr [.null]), ("total_price", .num (.fin 1000))]))
        State.init).dataLayer = [] ∧
    emitCartEvent (sampleEnv shippedPrivacy none) "add_to_cart"
        (.obj [("items", .arr [.obj [("price", .obj [("toString", .num (.fin 0))])]]),
          ("total_price", .num (.fin 0))]) State.init =
      .error .typeError := by
  refine ⟨rfl, ?_, rfl⟩
  have h1 : xhrEventType "/cart/add.js" = some "add_to_cart" := by decide
  have h2 : emitCartEvent (sampleEnv shippedPrivacy none) "add_to_cart"
      (.obj [("items", .arr [.null]), ("total_price", .num (.fin 1000))]) State.init =
      .error .typeError := rfl
  simp only [xhrOnLoad, h1, h2]
  rfl

/-- C8 (amended): for every single-item cart response, an object whose `items` is not an
array, whose `price` and `quantity` convert to a number without a throw (as every
number, string, boolean, `null` or absent value does), `emitCartEvent` returns and
appends exactly one event with exactly one line item, whose `price` is the response's
`price / 100`, whose `quantity` is the response's `quantity` and whose `item_name` is
`product_title || title`; `ecommerce.value` is `price * quantity / 100`; `/` and `*`
are the division and the multiplication of the host. -/
theorem emitCartEvent_single_item (env : Env) (eventType : String) (data : Obj) (s : State)
    (p q : JSNum)
    (hno : ∀ xs : List JSVal, Obj.get data "items" ≠ .arr xs)
    (hp : toNumber env (Obj.get data "price") = .ok p)
    (hq : toNumber env (Obj.get data "quantity") = .ok q) :
    ∃ o : Obj,
      emitCartEvent env eventType (.obj data) s =
        .ok { s with dataLayer := s.dataLayer ++
          [cartPayload env eventType (env.numDiv (env.numMul p q) (.fin 100)) [.obj o]] } ∧
      Obj.get o "price" = .num (env.numDiv p (.fin 100)) ∧
      Obj.get o "quantity" = Obj.get data "quantity" ∧
      Obj.get o "item_name" = jsOr (Obj.get data "product_title") (Obj.get data "title") := by
  have hc : cartItem env (.obj data) = .ok (.obj [("item_id", Obj.get data "product_id"),
      ("item_name", jsOr (Obj.get data "product_title") (Obj.get data "title")),
      ("item_brand", Obj.get data "vendor"),
      ("item_category", jsOr (Obj.get data "product_type") (.str "")),
      ("item_variant", Obj.get data "variant_id"),
      ("price", .num (env.numDiv p (.fin 100))),
      ("quantity", Obj.get data "quantity")]) := by
    unfold cartItem
    simp only [getProp, hp, bind, Except.bind, jsOr]
    cases truthy (Obj.get data "product_title") <;> rfl
  refine ⟨[("item_id", Obj.get data "product_id"),
      ("item_name", jsOr (Obj.get data "product_title") (Obj.get data "title")),
      ("item_brand", Obj.get data "vendor"),
      ("item_category", jsOr (Obj.get data "product_type") (.str "")),
      ("item_variant", Obj.get data "variant_id"),
      ("price", .num (env.numDiv p (.fin 100))),
      ("quantity", Obj.get data "quantity")], ?_, by simp [Obj.get], by simp [Obj.get],
    by simp [Obj.get]⟩
  unfold emitCartEvent
  cases hi : Obj.get data "items" with
  | arr xs => exact absurd hi (hno xs)
  | _ =>
    simp only [getProp, hi, hc, hp, hq, bind, Except.bind, pure, Except.pure, _trackObj,
      cartPayload]

theorem emitCartEvent_single_item_witness :
    (∃ o : Obj,
      emitCartEvent (sampleEnv shippedPrivacy none) "add_to_cart" (.obj shirtResponse)
          State.init =
        .ok { State.init with dataLayer := State.init.dataLayer ++
          [cartPayload (sampleEnv shippedPrivacy none) "add_to_cart"
            (sampleDiv (sampleMul (.fin 2500) (.fin 2)) (.fin 100)) [.obj o]] } ∧
      Obj.get o "price" = .num (sampleDiv (.fin 2500) (.fin 100)) ∧
      Obj.get o "quantity" = Obj.get shirtResponse "quantity" ∧
      Obj.get o "item_name" =
        jsOr (Obj.get shirtResponse "product_title") (Obj.get shirtResponse "title")) ∧
    emitCartEvent (sampleEnv shippedPrivacy none) "add_to_cart" (.obj shirtResponse)
        State.init =
      .ok { State.init with dataLayer :=
        [.obj [("event", .str "add_to_cart"),
          ("ecommerce", .obj [("currency", .str "EUR"), ("value", .num (.fin 50)),
            ("items", .arr [.obj [("item_id", .num (.fin 1)), ("item_name", .str "Shirt"),
              ("item_brand", .undefined), ("item_category", .str ""),
              ("item_variant", .undefined), ("price", .num (.fin 25)),
              ("quantity", .num (.fin 2))]])])]] } := by
  constructor
  · exact emitCartEvent_single_item (sampleEnv shippedPrivacy none) "add_to_cart"
      shirtResponse State.init (.fin 2500) (.fin 2) (by intro xs h; cases h) rfl rfl
  · simp [emitCartEvent, getProp, Obj.get, cartItem, bind, Except.bind, pure,
      Except.pure, truthy, jsOr, toNumber, sampleDiv, sampleMul, _trackObj, State.init,
      sampleEnv, shirtResponse]
    norm_num

/-- C8 (counterexample): the response `{price: {toString: 0}}` is an object without an
`items` array, yet `emitCartEvent` throws a `TypeError`, since `data.price / 100` cannot
convert the object to a number, and pushes no event; through the `load` listener the
queue stays empty. -/
theorem emitCartEvent_unconvertible_price_throws :
    emitCartEvent (sampleEnv shippedPrivacy none) "add_to_cart"
        (.obj [("price", .obj [("toString", .num (.fin 0))])]) State.init =
      .error .typeError ∧
    (xhrOnLoad (sampleEnv shippedPrivacy none) "/cart/add.js"
        (.ok (.obj [("price", .obj [("toString", .num (.fin 0))])]))
        State.init).dataLayer = [] := by
  refine ⟨rfl, ?_⟩
  have h1 : xhrEventType "/cart/add.js" = some "add_to_cart" := by decide
  have h2 : emitCartEvent (sampleEnv shippedPrivacy none) "add_to_cart"
      (.obj [("price", .obj [("toString", .num (.fin 0))])]) State.init =
      .error .typeError := rfl
  simp only [xhrOnLoad, h1, h2]
  rfl

/-! ## URL classification -/

theorem includes_iff (s sub : String) : includes s sub = true ↔ Contains s sub := by
  simp [includes, Contains]

/-- C9 (amended): for every request URL both interceptors classify it the same way: a URL
containing `"/cart/add"` is `add_to_cart` (also when it contains `"/cart/change"`), a
URL containing `"/cart/change"` but not `"/cart/add"` is `remove_from_cart`, and for a
URL containing neither the wrapped `fetch` hands back the original outcome with the
state unchanged and the `load` listener leaves the state unchanged, so no cart event is
produced. -/
theorem interceptors_classify_alike (url : String) :
    fetchEventType url = xhrEventType url ∧
    (Contains url "/cart/add" → fetchEventType url = some "add_to_cart") ∧
    (Contains url "/cart/change" → ¬ Contains url "/cart/add" →
      fetchEventType url = some "remove_from_cart") ∧
    (¬ Contains url "/cart/add" → ¬ Contains url "/cart/change" →
      fetchEventType url = none ∧
      (∀ (env : Env) (original : Except JSError Response) (s : State),
        interceptFetch env url original s = (s, original)) ∧
      (∀ (env : Env) (responseJson : Except JSError JSVal) (s : State),
        xhrOnLoad env url responseJson s = s)) := by
  refine ⟨rfl, ?_, ?_, ?_⟩
  · intro ha
    rw [← includes_iff] at ha
    simp [fetchEventType, ha]
  · intro hc ha
    rw [← includes_iff] at hc ha
    simp [fetchEventType, hc, ha]
  · intro ha hc
    rw [← includes_iff] at hc ha
    have hf : fetchEventType url = none := by simp [fetchEventType, hc, ha]
    have hx : xhrEventType url = none := hf
    refine ⟨hf, ?_, ?_⟩
    · intro env original s
      simp [interceptFetch, hf]
    · intro env responseJson s
      simp [xhrOnLoad, hx]

theorem interceptors_classify_alike_witness :
    fetchEventType "/cart/add.js?then=/cart/change" = some "add_to_cart" ∧
    fetchEventType "/cart/change.js" = some "remove_from_cart" ∧
    xhrOnLoad (sampleEnv shippedPrivacy none) "/products/shirt.js"
      (.ok (.obj shirtResponse)) State.init = State.init :=
  ⟨(interceptors_classify_alike "/cart/add.js?then=/cart/change").2.1 (by decide),
   (interceptors_classify_alike "/cart/change.js").2.2.1 (by decide) (by decide),
   ((interceptors_classify_alike "/products/shirt.js").2.2.2 (by decide) (by decide)).2.2
     _ _ _⟩

/-- C9 (counterexample): the relative URL `cart/add.js` contains the fragment `cart/add`,
yet neither interceptor classifies it (both look for `/cart/add`), and a successful
response to it produces no cart event. -/
theorem relative_cart_url_not_classified :
    Contains "cart/add.js" "cart/add" ∧
    fetchEventType "cart/add.js" = none ∧ xhrEventType "cart/add.js" = none ∧
    xhrOnLoad (sampleEnv shippedPrivacy none) "cart/add.js" (.ok (.obj shirtResponse))
      State.init = State.init := by
  have hx : xhrEventType "cart/add.js" = none := by decide
  refine ⟨by decide, by decide, hx, ?_⟩
  simp [xhrOnLoad, hx]

/-! ## Order of the consent records -/

/-- C10 (amended): for every resolved run of `initAllScripts` from the unloaded state with
both store flags off and `cgtm` false in which the tag loader is initialised: with
consent mode on the queue gains exactly, in this order, a `defaultConsent` record, the
`gtm.js` bootstrap record, a `consentUpdate` record and a `consent_update` event, the
platform-hosted branch (`cshy`) signalling `cm_default` and then the cookie-derived
consent (`cm_shfy || {}`), the custom branch signalling `uConsent` in both; with consent
mode off it gains only the bootstrap record followed by the `consent_update` event. -/
theorem consent_records_in_order (env : Env) (now : Nat) (s s1 : State)
    (dP : PrivacySettings) (hres : loadPrivacySettings env = .ok dP)
    (hrun : initAllScripts env now s = .ok s1)
    (hs : s.gtmLoaded = false) (hinit : s1.gtmLoaded = true)
    (hsm : env.privacyConfig.store_managed = false)
    (hsi : env.privacyConfig.store_implement = false)
    (hg : env.privacyConfig.cgtm = false) :
    (env.privacyConfig.cm = true →
      s1.dataLayer = s.dataLayer ++
        [defaultConsentRecord
            (if env.privacyConfig.cshy then env.privacyConfig.cm_default else s.uConsent),
         bootstrapRecord now,
         consentUpdateRecord
            (if env.privacyConfig.cshy then orEmpty dP.cm_shfy else s.uConsent),
         consentEvent
            (if env.privacyConfig.cshy then orEmpty dP.cm_shfy else s.uConsent)]) ∧
    (env.privacyConfig.cm = false →
      s1.dataLayer = s.dataLayer ++
        [bootstrapRecord now,
         consentEvent
            (if env.privacyConfig.cshy then orEmpty dP.cm_shfy else s.uConsent)]) := by
  have hcfg := loadPrivacySettings_config env dP hres
  have hg1 : dP.cgtm = false := by rw [hcfg]; exact hg
  simp only [initAllScripts, hres, Except.ok.injEq] at hrun
  subst hrun
  rw [← hcfg]
  unfold initAllScriptsWith at hinit ⊢
  simp only [hsm, hsi, hg1] at hinit ⊢
  have hstep : ∀ (c : Bool) (t : State), (if c = true then t else s).gtmLoaded = true →
      c = true := by
    intro c t h
    cases c
    · simp [hs] at h
    · rfl
  cases hcs : dP.cs <;> cases hcm : dP.cm <;> cases hy : dP.cshy <;>
    simp only [hcs, hcm, hy, Bool.not_true, Bool.not_false, Bool.false_eq_true, if_true,
      if_false, false_implies, true_implies, and_true, true_and, Bool.false_and,
      Bool.and_true] at hinit ⊢ <;>
    first
    | (simp [initTagManager, setDefaultConsent, consentUpdate, _trackObj, hs]; done)
    | (have hh := hstep _ _ hinit
       simp [hh, initTagManager, setDefaultConsent, consentUpdate, _trackObj, hs])

theorem consent_records_in_order_witness :
    (initAllScriptsWith (sampleEnv laxCustom none) 7
        { toPrivacyConfig := laxCustom, cm_shfy := none } State.init).dataLayer =
      State.init.dataLayer ++
        [defaultConsentRecord uConsent0, bootstrapRecord 7, consentUpdateRecord uConsent0,
         consentEvent uConsent0] :=
  (consent_records_in_order (sampleEnv laxCustom none) 7 State.init
    (initAllScriptsWith (sampleEnv laxCustom none) 7
      { toPrivacyConfig := laxCustom, cm_shfy := none } State.init)
    { toPrivacyConfig := laxCustom, cm_shfy := none } rfl rfl rfl rfl rfl rfl rfl).1 rfl

/-- C10 (counterexample): with `store_managed` set, consent mode on and a CMP that is not
tag-manager-hosted, a run from the unloaded state initialises the tag loader, yet the
queue gains the bootstrap record alone: no `defaultConsent`, `consentUpdate` or
`consent_update` record. -/
theorem store_managed_run_gains_bootstrap_only :
    storeManaged.cm = true ∧ storeManaged.cgtm = false ∧ State.init.gtmLoaded = false ∧
    ∃ s1 : State, initAllScripts (sampleEnv storeManaged none) 7 State.init = .ok s1 ∧
      s1.gtmLoaded = true ∧ s1.dataLayer = [bootstrapRecord 7] :=
  ⟨rfl, rfl, rfl, _, rfl, rfl, rfl⟩

/-! ## The consent store -/

/-- C11: for every settings object and every state, `consentUpdate` appends exactly one
record, a `consentUpdate` record whose `gtm.consent` has exactly the four keys
`ad_storage`, `analytics_storage`, `ad_user_data`, `ad_personalization`, each holding the
input's field; a field the input lacks is `undefined` there, not `"denied"`; afterwards
`uConsent` is the whole input, whatever the previous snapshot was, and the loaded flag
and the inserted scripts are unchanged. -/
theorem consentUpdate_replaces_snapshot (updatedPrivacy : Obj) (s : State) :
    (consentUpdate updatedPrivacy s).dataLayer = s.dataLayer ++
      [.obj [("event", .str "consentUpdate"),
        ("gtm.consent", .obj
          [("ad_storage", Obj.get updatedPrivacy "ad_storage"),
           ("analytics_storage", Obj.get updatedPrivacy "analytics_storage"),
           ("ad_user_data", Obj.get updatedPrivacy "ad_user_data"),
           ("ad_personalization", Obj.get updatedPrivacy "ad_personalization")])]] ∧
    (∀ k : String, (∀ p ∈ updatedPrivacy, p.1 ≠ k) → Obj.get updatedPrivacy k = .undefined) ∧
    (consentUpdate updatedPrivacy s).uConsent = updatedPrivacy ∧
    (consentUpdate updatedPrivacy s).currentConsents = some updatedPrivacy ∧
    (consentUpdate updatedPrivacy s).gtmLoaded = s.gtmLoaded ∧
    (consentUpdate updatedPrivacy s).scripts = s.scripts := by
  refine ⟨rfl, ?_, rfl, rfl, rfl, rfl⟩
  intro k hk
  have hnone : List.find? (fun p => p.1 == k) updatedPrivacy = none := by
    rw [List.find?_eq_none]
    intro p hp
    simpa using hk p hp
  simp [Obj.get, hnone]

theorem consentUpdate_replaces_snapshot_witness :
    (consentUpdate [("ad_storage", .str "granted")] State.init).dataLayer =
        [.obj [("event", .str "consentUpdate"),
          ("gtm.consent", .obj
            [("ad_storage", .str "granted"), ("analytics_storage", .undefined),
             ("ad_user_data", .undefined), ("ad_personalization", .undefined)])]] ∧
      Obj.get [("ad_storage", .str "granted")] "analytics_storage" = .undefined ∧
      (consentUpdate [("ad_storage", .str "granted")] State.init).uConsent =
        [("ad_storage", .str "granted")] :=
  ⟨(consentUpdate_replaces_snapshot [("ad_storage", .str "granted")] State.init).1,
   (consentUpdate_replaces_snapshot [("ad_storage", .str "granted")] State.init).2.1
     "analytics_storage" (by simp),
   (consentUpdate_replaces_snapshot [("ad_storage", .str "granted")] State.init).2.2.1⟩

/-- C12: for every settings object, `setDefaultConsent` leaves the whole state, queue
included, unchanged when the loaded flag is set; when it is not set it appends exactly
one record, `defaultConsent` with `gtm.consent` a copy of the settings, and changes
nothing else. -/
theorem setDefaultConsent_frame (consentSettings : Obj) (s : State) :
    (s.gtmLoaded = true → setDefaultConsent consentSettings s = s) ∧
    (s.gtmLoaded = false →
      setDefaultConsent consentSettings s =
        { s with dataLayer := s.dataLayer ++
          [.obj [("event", .str "defaultConsent"), ("gtm.consent", .obj consentSettings)]] }) := by
  constructor
  · intro h
    simp [setDefaultConsent, h]
  · intro h
    simp [setDefaultConsent, h, defaultConsentRecord]

theorem setDefaultConsent_frame_witness :
    setDefaultConsent uConsent0 State.init =
        { State.init with dataLayer :=
          [.obj [("event", .str "defaultConsent"), ("gtm.consent", .obj uConsent0)]] } ∧
      setDefaultConsent uConsent0 (initTagManager (sampleEnv shippedPrivacy none) 7 State.init) =
        initTagManager (sampleEnv shippedPrivacy none) 7 State.init :=
  ⟨(setDefaultConsent_frame uConsent0 State.init).2 rfl,
   (setDefaultConsent_frame uConsent0
      (initTagManager (sampleEnv shippedPrivacy none) 7 State.init)).1 rfl⟩

/-! ## Default-consent signalling over call sequences -/

theorem countDefaultConsent_append (q : List JSVal) (r : JSVal) :
    countDefaultConsent (q ++ [r]) =
      countDefaultConsent q + (if isEvent "defaultConsent" r then 1 else 0) := by
  unfold countDefaultConsent
  rw [List.filter_append, List.length_append]
  cases h : isEvent "defaultConsent" r <;> simp [List.filter, h]

theorem runCalls_cons (env : Env) (c : Call) (cs : List Call) (s : State) :
    runCalls env (c :: cs) s = runCalls env cs (c.run env s) := rfl

theorem runCalls_loaded (env : Env) (calls : List Call) (s : State)
    (h : s.gtmLoaded = true) :
    (runCalls env calls s).gtmLoaded = true ∧
      countDefaultConsent (runCalls env calls s).dataLayer = countDefaultConsent s.dataLayer := by
  induction calls generalizing s with
  | nil => exact ⟨h, rfl⟩
  | cons c cs ih =>
    rw [runCalls_cons]
    cases c with
    | setDefaultConsent o =>
      have e : Call.run env (.setDefaultConsent o) s = s := by
        simp [Call.run, setDefaultConsent, h]
      rw [e]
      exact ih s h
    | initTagManager now =>
      have e : Call.run env (.initTagManager now) s = s := by
        simp [Call.run, initTagManager, h]
      rw [e]
      exact ih s h
    | consentUpdate o =>
      obtain ⟨h1, h2⟩ := ih (Call.run env (.consentUpdate o) s)
        (by simp [Call.run, consentUpdate, h])
      refine ⟨h1, ?_⟩
      rw [h2]
      simp [Call.run, consentUpdate, countDefaultConsent_append, consentUpdateRecord, isEvent,
        eventOf, Obj.get, strictEqStr]

theorem runCalls_count (env : Env) (calls : List Call) (s : State)
    (h : s.gtmLoaded = false) :
    countDefaultConsent (runCalls env calls s).dataLayer =
      countDefaultConsent s.dataLayer + defaultsBeforeInit calls := by
  induction calls generalizing s with
  | nil => simp [runCalls, defaultsBeforeInit]
  | cons c cs ih =>
    rw [runCalls_cons]
    cases c with
    | setDefaultConsent o =>
      have hl : (Call.run env (.setDefaultConsent o) s).gtmLoaded = false := by
        simp [Call.run, setDefaultConsent, h]
      rw [ih _ hl]
      simp [Call.run, setDefaultConsent, h, countDefaultConsent_append, defaultConsentRecord,
        isEvent, eventOf, Obj.get, strictEqStr, defaultsBeforeInit, List.takeWhile,
        Call.isInit, Call.isSetDefault, List.filter]
      omega
    | initTagManager now =>
      have hl : (Call.run env (.initTagManager now) s).gtmLoaded = true := by
        simp [Call.run, initTagManager, h]
      rw [(runCalls_loaded env cs _ hl).2]
      simp [Call.run, initTagManager, h, countDefaultConsent_append, bootstrapRecord,
        isEvent, eventOf, Obj.get, strictEqStr, defaultsBeforeInit, List.takeWhile,
        Call.isInit]
    | consentUpdate o =>
      have hl : (Call.run env (.consentUpdate o) s).gtmLoaded = false := by
        simp [Call.run, consentUpdate, h]
      rw [ih _ hl]
      simp [Call.run, consentUpdate, countDefaultConsent_append, consentUpdateRecord,
        isEvent, eventOf, Obj.get, strictEqStr, defaultsBeforeInit, List.takeWhile,
        Call.isInit, Call.isSetDefault, List.filter]

/-- C13 (amended): for every sequence of calls to `setDefaultConsent`, `initTagManager`
and `consentUpdate` from the initial state, the queue holds exactly as many
`defaultConsent` records as there are `setDefaultConsent` calls before the first
`initTagManager` call; once the loaded flag is set no call appends another one; and a
run of `initAllScripts` from the initial state leaves at most one `defaultConsent`
record in the queue. -/
theorem default_consent_until_loaded (env : Env) (calls : List Call) :
    countDefaultConsent (runCalls env calls State.init).dataLayer = defaultsBeforeInit calls ∧
    (∀ s : State, s.gtmLoaded = true →
      countDefaultConsent (runCalls env calls s).dataLayer =
        countDefaultConsent s.dataLayer) ∧
    (∀ (now : Nat) (s1 : State), initAllScripts env now State.init = .ok s1 →
      countDefaultConsent s1.dataLayer ≤ 1) := by
  refine ⟨?_, fun s h => (runCalls_loaded env calls s h).2, ?_⟩
  · have := runCalls_count env calls State.init rfl
    simpa [State.init, countDefaultConsent] using this
  · intro now s1 h
    simp only [initAllScripts] at h
    split at h
    · cases h
    · cases h
      unfold initAllScriptsWith
      repeat' split
      all_goals
        simp [countDefaultConsent, State.init, initTagManager, setDefaultConsent,
          consentUpdate, _trackObj, defaultConsentRecord, consentUpdateRecord, consentEvent,
          bootstrapRecord, isEvent, eventOf, Obj.get, strictEqStr, List.filter]

theorem default_consent_until_loaded_witness :
    countDefaultConsent (runCalls (sampleEnv laxCustom none)
        [.setDefaultConsent uConsent0, .initTagManager 7, .setDefaultConsent uConsent0,
         .consentUpdate uConsent0] State.init).dataLayer = 1 ∧
      ∃ s1 : State, initAllScripts (sampleEnv laxCustom none) 7 State.init = .ok s1 ∧
        countDefaultConsent s1.dataLayer ≤ 1 :=
  ⟨(default_consent_until_loaded (sampleEnv laxCustom none)
      [.setDefaultConsent uConsent0, .initTagManager 7, .setDefaultConsent uConsent0,
       .consentUpdate uConsent0]).1.trans (by decide),
   _, rfl,
   (default_consent_until_loaded (sampleEnv laxCustom none) []).2.2 7 _ rfl⟩

/-- C13 (counterexample): two calls of `setDefaultConsent` from the initial state, with
no `initTagManager` between them, leave two `defaultConsent` records in the queue:
the guard is the loaded flag, which only `initTagManager` sets. -/
theorem default_consent_signalled_twice :
    countDefaultConsent (runCalls (sampleEnv shippedPrivacy none)
      [.setDefaultConsent uConsent0, .setDefaultConsent uConsent0]
      State.init).dataLayer = 2 := by
  rw [runCalls_count _ _ _ rfl]
  decide

/-! ## Cookie resolution -/

theorem loadPrivacySettings_of_purposes (env : Env) (c : String) (o p : Obj)
    (hc : loadCookieConsentData env = some c) (hp : env.parseCookie c = .ok (.obj o))
    (hpur : Obj.get o "purposes" = .obj p) :
    loadPrivacySettings env =
      .ok { toPrivacyConfig := env.privacyConfig,
            cm_shfy := some
              [("ad_storage", grantedIf (Obj.get p "m")),
               ("analytics_storage", grantedIf (Obj.get p "a")),
               ("ad_user_data", grantedIf (Obj.get p "m")),
               ("ad_personalization", grantedIf (Obj.get p "m"))] } := by
  simp [loadPrivacySettings, hc, hp, hpur, getProp, bind, Except.bind, pure, Except.pure]

/-- C14: for every well-formed consent cookie (its decoded value is an object whose
`purposes` is an object), `loadPrivacySettings` returns the static configuration,
unchanged, extended with a four-category consent in which `ad_storage`, `ad_user_data`
and `ad_personalization` follow flag `m` and `analytics_storage` follows flag `a`; a
flag that is `true` gives `"granted"`, a flag that is `false` or absent gives
`"denied"` (in general the value is `"granted"` exactly when the flag is truthy), and
every value is `"granted"` or `"denied"`. -/
theorem loadPrivacySettings_maps_flags (env : Env) (c : String) (o p : Obj)
    (hc : loadCookieConsentData env = some c) (hp : env.parseCookie c = .ok (.obj o))
    (hpur : Obj.get o "purposes" = .obj p) :
    ∃ dP : PrivacySettings, loadPrivacySettings env = .ok dP ∧
      dP.toPrivacyConfig = env.privacyConfig ∧
      dP.cm_shfy = some
        [("ad_storage", grantedIf (Obj.get p "m")),
         ("analytics_storage", grantedIf (Obj.get p "a")),
         ("ad_user_data", grantedIf (Obj.get p "m")),
         ("ad_personalization", grantedIf (Obj.get p "m"))] ∧
      (∀ b : Bool, grantedIf (.bool b) = .str "granted" ↔ b = true) ∧
      grantedIf (.bool false) = .str "denied" ∧
      grantedIf .undefined = .str "denied" ∧
      (∀ f : JSVal, grantedIf f = .str "granted" ↔ truthy f = true) ∧
      (∀ f : JSVal, grantedIf f = .str "granted" ∨ grantedIf f = .str "denied") := by
  refine ⟨_, loadPrivacySettings_of_purposes env c o p hc hp hpur, rfl, rfl, ?_, rfl, rfl,
    ?_, ?_⟩
  · intro b
    cases b <;> simp [grantedIf, truthy]
  · intro f
    unfold grantedIf
    cases truthy f <;> simp
  · intro f
    unfold grantedIf
    cases truthy f <;> simp

theorem loadPrivacySettings_maps_flags_witness :
    ∃ dP : PrivacySettings,
      loadPrivacySettings (sampleEnv shippedPrivacy (some "analytics-only")) = .ok dP ∧
      dP.toPrivacyConfig = shippedPrivacy ∧
      dP.cm_shfy = some
        [("ad_storage", .str "denied"), ("analytics_storage", .str "granted"),
         ("ad_user_data", .str "denied"), ("ad_personalization", .str "denied")] := by
  obtain ⟨dP, h1, h2, h3, -⟩ :=
    loadPrivacySettings_maps_flags (sampleEnv shippedPrivacy (some "analytics-only"))
      "analytics-only" [("purposes", .obj [("m", .bool false), ("a", .bool true)])]
      [("m", .bool false), ("a", .bool true)] rfl rfl rfl
  exact ⟨dP, h1, h2, h3⟩

/-- C15: for every cookie store, `loadCookieConsentData` returns the value of the first
of `_tracking_consent`, `_cmp_a`, `_shp_cmp` that is present (read as a non-empty
string), whatever the later ones hold; when none is present it returns nothing and
`loadPrivacySettings` returns the static configuration unchanged, with no `cm_shfy`. -/
theorem loadCookieConsentData_first_present (env : Env) :
    (∀ v : String, CookiePresent env "_tracking_consent" v →
      loadCookieConsentData env = some v) ∧
    (∀ v : String, CookieAbsent env "_tracking_consent" → CookiePresent env "_cmp_a" v →
      loadCookieConsentData env = some v) ∧
    (∀ v : String, CookieAbsent env "_tracking_consent" → CookieAbsent env "_cmp_a" →
      CookiePresent env "_shp_cmp" v → loadCookieConsentData env = some v) ∧
    (CookieAbsent env "_tracking_consent" → CookieAbsent env "_cmp_a" →
      CookieAbsent env "_shp_cmp" →
      loadCookieConsentData env = none ∧
      loadPrivacySettings env =
        .ok { toPrivacyConfig := env.privacyConfig, cm_shfy := none }) := by
  have present : ∀ (name v : String), CookiePresent env name v →
      (match env.cookie name with
        | some value => if value != "" then some value else none
        | none => none) = some v := by
    intro name v h
    obtain ⟨h1, h2⟩ := h
    simp [h1, h2]
  have absent : ∀ name : String, CookieAbsent env name →
      (match env.cookie name with
        | some value => if value != "" then some value else none
        | none => none) = none := by
    intro name h
    cases hv : env.cookie name with
    | none => rfl
    | some v => simp [h v hv]
  refine ⟨?_, ?_, ?_, ?_⟩
  · intro v h1
    simp only [loadCookieConsentData, List.findSome?, present _ _ h1]
  · intro v h1 h2
    simp only [loadCookieConsentData, List.findSome?, absent _ h1, present _ _ h2]
  · intro v h1 h2 h3
    simp only [loadCookieConsentData, List.findSome?, absent _ h1, absent _ h2,
      present _ _ h3]
  · intro h1 h2 h3
    have hn : loadCookieConsentData env = none := by
      simp only [loadCookieConsentData, List.findSome?, absent _ h1, absent _ h2,
        absent _ h3]
    exact ⟨hn, by simp [loadPrivacySettings, hn]⟩

theorem loadCookieConsentData_first_present_witness :
    loadCookieConsentData (sampleEnv shippedPrivacy (some "all-granted")) =
        some "all-granted" ∧
      loadPrivacySettings (sampleEnv shippedPrivacy none) =
        .ok { toPrivacyConfig := shippedPrivacy, cm_shfy := none } :=
  ⟨(loadCookieConsentData_first_present (sampleEnv shippedPrivacy (some "all-granted"))).1
      "all-granted" ⟨rfl, by decide⟩,
   ((loadCookieConsentData_first_present (sampleEnv shippedPrivacy none)).2.2.2
      (fun _ h => by cases h) (fun _ h => by cases h) (fun _ h => by cases h)).2⟩

/-! ## Checkout subscribers -/

theorem handlers_eq_parameterised (env : Env) (event : JSVal) (s : State) :
    checkoutStartedHandler env event s =
      parameterisedCheckoutHandler "begin_checkout" env event s ∧
    checkoutShippingInfoSubmittedHandler env event s =
      parameterisedCheckoutHandler "add_shipping_info" env event s ∧
    paymentInfoSubmittedHandler env event s =
      parameterisedCheckoutHandler "add_payment_info" env event s ∧
    checkoutCompletedHandler env event s =
      parameterisedCheckoutHandler "purchase" env event s := by
  refine ⟨?_, ?_, ?_, ?_⟩
  · simp [checkoutStartedHandler, parameterisedCheckoutHandler, checkoutFields, bind_assoc]
  · simp [checkoutShippingInfoSubmittedHandler, parameterisedCheckoutHandler, checkoutFields,
      bind_assoc]
  · simp [paymentInfoSubmittedHandler, parameterisedCheckoutHandler, checkoutFields,
      bind_assoc]
  · simp [checkoutCompletedHandler, parameterisedCheckoutHandler, checkoutFields, bind_assoc]

theorem parameterisedCheckoutHandler_eq (eventName : String) (env : Env) (event : JSVal)
    (s : State) :
    parameterisedCheckoutHandler eventName env event s =
      match checkoutFields env event with
      | .error e => .error e
      | .ok fields => .ok (_trackObj (.obj (("event", .str eventName) :: fields)) s) := by
  unfold parameterisedCheckoutHandler
  cases checkoutFields env event <;> rfl

/-- C16: the four subscriptions map `checkout_started`,
`checkout_shipping_info_submitted`, `payment_info_submitted` and `checkout_completed`
to subscribers that are each the one parameterised handler at the event name
`begin_checkout`, `add_shipping_info`, `add_payment_info` and `purchase`
respectively: on every notification, with the same hashing, they throw alike or push
one payload made of the `event` name followed by the same remaining fields. -/
theorem checkout_handlers_are_one_handler (env : Env) (event : JSVal) (s : State) :
    (∃ h, subscriberOf "checkout_started" = some h ∧
      h env event s = parameterisedCheckoutHandler "begin_checkout" env event s) ∧
    (∃ h, subscriberOf "checkout_shipping_info_submitted" = some h ∧
      h env event s = parameterisedCheckoutHandler "add_shipping_info" env event s) ∧
    (∃ h, subscriberOf "payment_info_submitted" = some h ∧
      h env event s = parameterisedCheckoutHandler "add_payment_info" env event s) ∧
    (∃ h, subscriberOf "checkout_completed" = some h ∧
      h env event s = parameterisedCheckoutHandler "purchase" env event s) ∧
    (∀ eventName : String, parameterisedCheckoutHandler eventName env event s =
      match checkoutFields env event with
      | .error e => .error e
      | .ok fields => .ok (_trackObj (.obj (("event", .str eventName) :: fields)) s)) := by
  obtain ⟨h1, h2, h3, h4⟩ := handlers_eq_parameterised env event s
  exact ⟨⟨checkoutStartedHandler, rfl, h1⟩, ⟨checkoutShippingInfoSubmittedHandler, rfl, h2⟩,
    ⟨paymentInfoSubmittedHandler, rfl, h3⟩, ⟨checkoutCompletedHandler, rfl, h4⟩,
    fun eventName => parameterisedCheckoutHandler_eq eventName env event s⟩

/-! ## Line items of a checkout -/

theorem getIndex_total (v : JSVal) (i : Nat) (h : nullish v = false) :
    ∃ w, getIndex v i = .ok w := by
  cases v with
  | str t =>
    cases hg : t.data.get? i with
    | none => exact ⟨.undefined, by simp only [getIndex, hg]⟩
    | some ch => exact ⟨.str (String.singleton ch), by simp only [getIndex, hg]⟩
  | _ => simp_all [getIndex, nullish]

theorem optChain_obj (o : Obj) (k : String) (rest : JSVal → Except JSError JSVal) :
    optChain (.obj o) k rest = rest (Obj.get o k) := by
  simp [optChain, nullish, getProp, bind, Except.bind]

theorem checkoutEcom_items_of (event : JSVal) (o : Obj) (xs : List JSVal)
    (hc : checkoutChain event pure = .ok (.obj o))
    (hda : nullish (Obj.get o "discountApplications") = false)
    (hli : jsOr (Obj.get o "lineItems") (.arr []) = .arr xs)
    (hxs : ∀ x ∈ xs, nullish x = false) :
    ∃ (r : Obj) (its : List JSVal), checkoutEcom event = .ok (.obj r) ∧
      Obj.get r "items" = .arr its ∧
      List.Forall₂ (fun x y => checkoutItem x = .ok y) xs its := by
  have two : ∀ (b : JSVal) (k1 k2 : String),
      ∃ w, optChain b k1 (fun a => optChain a k2 pure) = .ok w :=
    fun b k1 k2 => optChain_total b k1 _ (fun a => optChain_total a k2 _ pure_total)
  have hu : ∀ (k : String) (rest : JSVal → Except JSError JSVal),
      optChain .undefined k rest = .ok .undefined := fun _ _ => rfl
  unfold checkoutEcom firstDiscount
  simp only [checkoutChain_eq event _ _ hc, hu]
  obtain ⟨v1, h1⟩ := optChain_total (.obj o) "order" _
    (fun a => optChain_total a "id" _ pure_total)
  obtain ⟨v2, h2⟩ := optChain_total (.obj o) "currencyCode" _ pure_total
  obtain ⟨v3, h3⟩ := optChain_total (.obj o) "shippingLine" _ (fun a => two a "price" "amount")
  obtain ⟨v4, h4⟩ := two (.obj o) "totalPrice" "amount"
  obtain ⟨v5, h5⟩ := two (.obj o) "totalTax" "amount"
  obtain ⟨ys, hys, hall⟩ := arrayMap_total checkoutItem (fun x y => checkoutItem x = .ok y) xs
    (fun x hx => (checkoutItem_total x (hxs x hx)).imp fun _ h => ⟨h, h⟩)
  have h6 : ∀ k : String, ∃ w, optChain (.obj o) "discountApplications" (fun apps => do
      let first ← getIndex apps 0
      optChain first k pure) = .ok w := by
    intro k
    obtain ⟨first, hf⟩ := getIndex_total (Obj.get o "discountApplications") 0 hda
    obtain ⟨w, hw⟩ := optChain_total first k _ pure_total
    refine ⟨w, ?_⟩
    rw [optChain_obj]
    simp only [hf, bind, Except.bind]
    exact hw
  obtain ⟨d1, hd1⟩ := h6 "amount"
  obtain ⟨d2, hd2⟩ := h6 "title"
  simp only [bind, Except.bind] at hd1 hd2
  have h7 : optChain (.obj o) "lineItems" pure = .ok (Obj.get o "lineItems") :=
    optChain_obj o "lineItems" pure
  simp only [h1, h2, h3, h4, h5, hd1, hd2, h7, hli, hys, bind, Except.bind]
  exact ⟨_, ys, rfl, by simp [Obj.get], hall⟩

/-- C17 (amended): for every checkout notification whose checkout payload holds a
`discountApplications` value and whose `lineItems` is absent or a list without null
entries, `checkoutEcom` returns and its `items` list has the length and the order of
`lineItems`, the i-th item being built from the i-th line item (so it is empty when
`lineItems` is absent); and when the checkout payload, or `data`, is missing altogether
`checkoutEcom` returns with an empty `items` list. -/
theorem checkoutEcom_items_follow_lineItems (event c : JSVal)
    (hc : checkoutChain event pure = .ok c) :
    (nullish c = true →
      ∃ r : Obj, checkoutEcom event = .ok (.obj r) ∧ Obj.get r "items" = .arr []) ∧
    (∀ (o : Obj) (xs : List JSVal), c = .obj o →
      nullish (Obj.get o "discountApplications") = false →
      jsOr (Obj.get o "lineItems") (.arr []) = .arr xs → (∀ x ∈ xs, nullish x = false) →
      ∃ (r : Obj) (its : List JSVal), checkoutEcom event = .ok (.obj r) ∧
        Obj.get r "items" = .arr its ∧ its.length = xs.length ∧
        List.Forall₂ (fun x y => checkoutItem x = .ok y) xs its) ∧
    (∀ o : Obj, c = .obj o → nullish (Obj.get o "discountApplications") = false →
      truthy (Obj.get o "lineItems") = false →
      ∃ r : Obj, checkoutEcom event = .ok (.obj r) ∧ Obj.get r "items" = .arr []) := by
  refine ⟨?_, ?_, ?_⟩
  · intro hn
    have hu : ∀ (k : String) (rest : JSVal → Except JSError JSVal),
        optChain .undefined k rest = .ok .undefined := fun _ _ => rfl
    unfold checkoutEcom firstDiscount
    simp only [checkoutChain_eq event c _ hc, hu]
    simp [optChain_nullish c _ _ hn, bind, Except.bind, jsOr, truthy, arrayMap, pure,
      Except.pure, Obj.get]
  · intro o xs ho hda hli hxs
    subst ho
    obtain ⟨r, its, h1, h2, h3⟩ := checkoutEcom_items_of event o xs hc hda hli hxs
    exact ⟨r, its, h1, h2, h3.length_eq.symm, h3⟩
  · intro o ho hda hli
    subst ho
    obtain ⟨r, its, h1, h2, h3⟩ := checkoutEcom_items_of event o [] hc hda
      (by simp [jsOr, hli]) (by simp)
    cases h3
    exact ⟨r, h1, h2⟩

theorem checkoutEcom_items_follow_lineItems_witness :
    ∃ (r : Obj) (its : List JSVal),
      checkoutEcom (.obj [("data", .obj [("checkout", .obj
        [("discountApplications", .arr []),
         ("lineItems", .arr [.obj [("title", .str "Shirt")],
            .obj [("title", .str "Hat")]])])])]) = .ok (.obj r) ∧
      Obj.get r "items" = .arr its ∧ its.length = 2 := by
  obtain ⟨r, its, h1, h2, h3, -⟩ :=
    (checkoutEcom_items_follow_lineItems
      (.obj [("data", .obj [("checkout", .obj
        [("discountApplications", .arr []),
         ("lineItems", .arr [.obj [("title", .str "Shirt")],
            .obj [("title", .str "Hat")]])])])])
      _ rfl).2.1 _ [.obj [("title", .str "Shirt")], .obj [("title", .str "Hat")]] rfl rfl rfl
      (by simp [nullish])
  exact ⟨r, its, h1, h2, h3⟩

/-- C17 (counterexample): with a `null` entry in `lineItems` the callback throws on
reading `item.variant`, so `checkoutEcom` raises a `TypeError` instead of returning a
one-item list; a `lineItems` value that is not a list has no `map` and throws too; and
a checkout payload with line items but no `discountApplications` throws on the unguarded
indexed read before the items are built. -/
theorem checkoutEcom_lineItems_can_throw :
    checkoutEcom (.obj [("data", .obj [("checkout", .obj
      [("discountApplications", .arr []), ("lineItems", .arr [.null])])])]) =
      .error .typeError ∧
    checkoutEcom (.obj [("data", .obj [("checkout", .obj
      [("discountApplications", .arr []), ("lineItems", .str "none")])])]) =
      .error .typeError ∧
    checkoutEcom (.obj [("data", .obj [("checkout", .obj
      [("lineItems", .arr [.obj [("title", .str "Shirt")]])])])]) =
      .error .typeError :=
  ⟨rfl, rfl, rfl⟩

/-! ## Failed responses -/

/-- C18 (the code at the failing input): the wrapped `fetch` emits nothing for a
response that is not `ok`, whatever its body; the `load` listener of the wrapped `open`
never looks at the status: for the response `422 {"status": 422, "message": "Cart
Error", "description": "sold out"}` to `/cart/add.js` it pushes an `add_to_cart` event
whose value and price are `NaN`. -/
theorem xhr_listener_ignores_status :
    (∀ (env : Env) (url : String) (json : Except JSError JSVal) (s : State),
      interceptFetch env url (.ok { ok := false, json := json }) s =
        (s, .ok { ok := false, json := json })) ∧
    (xhrLoadListener (sampleEnv shippedPrivacy none) "/cart/add.js"
      { status := 422,
        responseJson := .ok (.obj [("status", .num (.fin 422)),
          ("message", .str "Cart Error"), ("description", .str "sold out")]) }
      State.init).dataLayer =
      [.obj [("event", .str "add_to_cart"),
        ("ecommerce", .obj [("currency", .str "EUR"), ("value", .num .nan),
          ("items", .arr [.obj [("item_id", .undefined), ("item_name", .undefined),
            ("item_brand", .undefined), ("item_category", .str ""),
            ("item_variant", .undefined), ("price", .num .nan),
            ("quantity", .undefined)]])])]] := by
  constructor
  · intro env url json s
    unfold interceptFetch
    cases fetchEventType url <;> simp
  · have h1 : xhrEventType "/cart/add.js" = some "add_to_cart" := by decide
    simp only [xhrLoadListener, xhrOnLoad, h1]
    rfl

/-! ## The queue only grows -/

theorem AppendsEvents_refl (s : State) : AppendsEvents s s :=
  ⟨[], by simp, by simp⟩

theorem AppendsEvents_track (s t : State) (payload : JSVal) (h : AppendsEvents s t)
    (hev : ∃ name : String, eventOf payload = .str name) :
    AppendsEvents s (_trackObj payload t) := by
  obtain ⟨added, h1, h2⟩ := h
  refine ⟨added ++ [payload], by simp [_trackObj, h1], ?_⟩
  intro r hr
  rcases List.mem_append.mp hr with hr | hr
  · exact h2 r hr
  · simp only [List.mem_singleton] at hr
    rw [hr]
    exact hev

theorem AppendsEvents_consentEvent (s t : State) (c : Obj) (h : AppendsEvents s t) :
    AppendsEvents s (_trackObj (consentEvent c) t) :=
  AppendsEvents_track s t _ h ⟨"consent_update", by simp [consentEvent, eventOf, Obj.get]⟩

theorem AppendsEvents_initTagManager (env : Env) (now : Nat) (s t : State)
    (h : AppendsEvents s t) : AppendsEvents s (initTagManager env now t) := by
  unfold initTagManager
  split
  · exact h
  · obtain ⟨added, h1, h2⟩ :=
      AppendsEvents_track s t (bootstrapRecord now) h
        ⟨"gtm.js", by simp [bootstrapRecord, eventOf, Obj.get]⟩
    exact ⟨added, h1, h2⟩

theorem AppendsEvents_setDefaultConsent (c : Obj) (s t : State) (h : AppendsEvents s t) :
    AppendsEvents s (setDefaultConsent c t) := by
  unfold setDefaultConsent
  split
  · exact h
  · obtain ⟨added, h1, h2⟩ :=
      AppendsEvents_track s t (defaultConsentRecord c) h
        ⟨"defaultConsent", by simp [defaultConsentRecord, eventOf, Obj.get]⟩
    exact ⟨added, h1, h2⟩

theorem AppendsEvents_consentUpdate (c : Obj) (s t : State) (h : AppendsEvents s t) :
    AppendsEvents s (consentUpdate c t) := by
  obtain ⟨added, h1, h2⟩ :=
    AppendsEvents_track s t (consentUpdateRecord c) h
      ⟨"consentUpdate", by simp [consentUpdateRecord, eventOf, Obj.get]⟩
  exact ⟨added, h1, h2⟩

theorem initAllScriptsWith_appends (env : Env) (now : Nat) (dP : PrivacySettings)
    (s : State) : AppendsEvents s (initAllScriptsWith env now dP s) := by
  unfold initAllScriptsWith
  repeat' split
  all_goals
    try dsimp only
    repeat first
      | exact AppendsEvents_refl s
      | apply AppendsEvents_consentEvent
      | apply AppendsEvents_consentUpdate
      | apply AppendsEvents_initTagManager
      | apply AppendsEvents_setDefaultConsent

theorem emitCartEvent_appends (env : Env) (eventType : String) (data : JSVal) (s s1 : State)
    (h : emitCartEvent env eventType data s = .ok s1) : AppendsEvents s s1 := by
  unfold emitCartEvent at h
  simp only [bind, Except.bind, pure, Except.pure] at h
  repeat' split at h
  all_goals first
    | (cases h
       exact AppendsEvents_track s s _ (AppendsEvents_refl s)
         ⟨eventType, by simp [eventOf, Obj.get]⟩)
    | cases h

theorem determinePageEvent_appends (env : Env) (s s1 : State)
    (h : determinePageEvent env s = .ok s1) : AppendsEvents s s1 := by
  unfold determinePageEvent at h
  simp only [bind, Except.bind, pure, Except.pure] at h
  repeat' split at h
  all_goals first
    | (cases h
       exact AppendsEvents_refl s)
    | (cases h
       refine AppendsEvents_track s s _ (AppendsEvents_refl s) ?_
       simp [eventOf, Obj.get])
    | cases h

theorem parameterisedCheckoutHandler_appends (eventName : String) (env : Env)
    (event : JSVal) (s s1 : State)
    (h : parameterisedCheckoutHandler eventName env event s = .ok s1) :
    AppendsEvents s s1 := by
  rw [parameterisedCheckoutHandler_eq] at h
  split at h
  · cases h
  · cases h
    exact AppendsEvents_track s s _ (AppendsEvents_refl s)
      ⟨eventName, by simp [eventOf, Obj.get]⟩

/-- C19: every operation only appends to the event queue. For `initTagManager`,
`setDefaultConsent`, `consentUpdate`, and for every returning run of `initAllScripts`,
`emitCartEvent`, `determinePageEvent` and each of the four checkout subscribers, the
queue afterwards is the queue before followed by the appended records, and every
appended record carries an `event` field that is a string. (A call that throws pushes
nothing.) -/
theorem queue_only_grows (env : Env) (s : State) :
    (∀ now : Nat, AppendsEvents s (initTagManager env now s)) ∧
    (∀ c : Obj, AppendsEvents s (setDefaultConsent c s)) ∧
    (∀ c : Obj, AppendsEvents s (consentUpdate c s)) ∧
    (∀ (now : Nat) (s1 : State), initAllScripts env now s = .ok s1 → AppendsEvents s s1) ∧
    (∀ (eventType : String) (data : JSVal) (s1 : State),
      emitCartEvent env eventType data s = .ok s1 → AppendsEvents s s1) ∧
    (∀ s1 : State, determinePageEvent env s = .ok s1 → AppendsEvents s s1) ∧
    (∀ p ∈ subscriptions, ∀ (event : JSVal) (s1 : State),
      p.2 env event s = .ok s1 → AppendsEvents s s1) := by
  refine ⟨fun now => AppendsEvents_initTagManager env now s s (AppendsEvents_refl s),
    fun c => AppendsEvents_setDefaultConsent c s s (AppendsEvents_refl s),
    fun c => AppendsEvents_consentUpdate c s s (AppendsEvents_refl s), ?_,
    fun eventType data s1 h => emitCartEvent_appends env eventType data s s1 h,
    fun s1 h => determinePageEvent_appends env s s1 h, ?_⟩
  · intro now s1 h
    unfold initAllScripts at h
    split at h
    · cases h
    · cases h
      exact initAllScriptsWith_appends env now _ s
  · intro p hp event s1 h
    obtain ⟨h1, h2, h3, h4⟩ := handlers_eq_parameterised env event s
    simp only [subscriptions, List.mem_cons, List.mem_singleton, List.not_mem_nil,
      or_false] at hp
    rcases hp with rfl | rfl | rfl | rfl <;> dsimp only at h
    · rw [h4] at h
      exact parameterisedCheckoutHandler_appends _ env event s s1 h
    · rw [h1] at h
      exact parameterisedCheckoutHandler_appends _ env event s s1 h
    · rw [h3] at h
      exact parameterisedCheckoutHandler_appends _ env event s s1 h
    · rw [h2] at h
      exact parameterisedCheckoutHandler_appends _ env event s s1 h

theorem queue_only_grows_witness :
    AppendsEvents State.init
      (initAllScriptsWith (sampleEnv laxCustom none) 7
        { toPrivacyConfig := laxCustom, cm_shfy := none } State.init) :=
  (queue_only_grows (sampleEnv laxCustom none) State.init).2.2.2.1 7 _ rfl

/-! ## Strict mode with a custom CMP -/

/-- C20: in strict mode with a custom CMP (`cs` true, `cgtm` and `cshy` false, both store
flags off) and the all-denied initial `uConsent`, `initAllScripts` never initialises the
tag loader and appends nothing, whatever the cookie holds and whether consent mode is on
or off: when the privacy settings resolve it returns the state unchanged (the gate reads
`uConsent`, never the cookie-derived consent), and when the cookie is malformed it
throws before doing anything. -/
theorem strict_custom_ignores_cookie (env : Env) (now : Nat) (s : State)
    (hcs : env.privacyConfig.cs = true) (hg : env.privacyConfig.cgtm = false)
    (hy : env.privacyConfig.cshy = false)
    (hsm : env.privacyConfig.store_managed = false)
    (hsi : env.privacyConfig.store_implement = false)
    (hu : s.uConsent = uConsent0) :
    (∀ dP : PrivacySettings, loadPrivacySettings env = .ok dP →
      initAllScripts env now s = .ok s) ∧
    (∀ e : JSError, loadPrivacySettings env = .error e →
      initAllScripts env now s = .error e) ∧
    (∀ s1 : State, initAllScripts env now s = .ok s1 → s1 = s) := by
  have hno : hasRequiredConsent (.obj s.uConsent) = false := by
    rw [hu]
    decide
  have key : ∀ dP : PrivacySettings, loadPrivacySettings env = .ok dP →
      initAllScripts env now s = .ok s := by
    intro dP hres
    have hcfg := loadPrivacySettings_config env dP hres
    have h1 : dP.cs = true := by rw [hcfg]; exact hcs
    have h2 : dP.cgtm = false := by rw [hcfg]; exact hg
    have h3 : dP.cshy = false := by rw [hcfg]; exact hy
    simp only [initAllScripts, hres]
    unfold initAllScriptsWith
    cases hcm : dP.cm <;> simp [hsm, hsi, h1, h2, h3, hno]
  refine ⟨key, ?_, ?_⟩
  · intro e he
    simp [initAllScripts, he]
  · intro s1 h
    cases hres : loadPrivacySettings env with
    | error e => simp [initAllScripts, hres] at h
    | ok dP =>
      rw [key dP hres] at h
      cases h
      rfl

theorem strict_custom_ignores_cookie_witness :
    initAllScripts (sampleEnv strictCustom (some "all-granted")) 7 State.init =
      .ok State.init :=
  (strict_custom_ignores_cookie (sampleEnv strictCustom (some "all-granted")) 7 State.init
    rfl rfl rfl rfl rfl rfl).1 _ rfl

end Corestad
